import Mathlib

/-!
# Intel MID IFX sound card: hardware interface layer

A shallow embedding of `sound/pci/intel_mid_i2s/intel_alsa_ifx_hw_interface.c`.

The C file keeps one global `s_streamifx_status` (the SSP handle and the bit
field of open substreams) and receives a pointer to a per-substream
`intel_alsa_ifx_stream_info`.  Here every function takes the global and the
pointed-to structure as arguments and returns their new values, its return
code, and the list of calls it made to the Intel MID I2S driver, in order.
What the I2S driver answers to those calls is an input (`HwEnv`).

The spin lock is not modelled: the functions are embedded as sequential code.
-/

namespace IntelAlsaIfx

/-! ## Constants -/

/-- Value of the errno `EINVAL`. -/
def EINVAL : Int := 22

/-- Value of the errno `EBUSY`. -/
def EBUSY : Int := 16

/-! ## Bit operations on an `unsigned long` bit field

The bit field is a natural number; bit numbers are not bounded by the word
size (the driver uses the bit numbers 0, 1 and 2). -/

/-- Kernel `test_bit(nr, addr)`. -/
def test_bit (nr : Nat) (word : Nat) : Bool := word.testBit nr

/-- Kernel `set_bit(nr, addr)`: `*addr |= 1UL << nr`. -/
def set_bit (nr : Nat) (word : Nat) : Nat := word ||| (1 <<< nr)

/-- Kernel `clear_bit(nr, addr)`: `*addr &= ~(1UL << nr)`.  On natural numbers
the complement is not available; removing the bits the word shares with the
one-bit pattern is the same operation. -/
def clear_bit (nr : Nat) (word : Nat) : Nat := word ^^^ (word &&& (1 <<< nr))

/-! ## Data model -/

/-- The field `stream` of `struct snd_pcm_substream`: the two directions the
switch statements name, and any other value (their `default:` branch). -/
inductive pcm_stream where
  | SNDRV_PCM_STREAM_PLAYBACK
  | SNDRV_PCM_STREAM_CAPTURE
  | other (value : Int)
  deriving DecidableEq, Repr

/-- The part of `struct snd_pcm_substream` the driver reads: a number standing
for the identity of the substream, and its direction. -/
structure snd_pcm_substream where
  number : Nat
  stream : pcm_stream
  deriving DecidableEq, Repr

/-- Modelled from the spec: `struct intel_alsa_ssp_dma_buf` is declared in
`intel_alsa_ifx_hw_interface.h`, which is missing.  The spec lists the buffer
as base address, period length, period count, next-submit index and
next-complete index; the field names are those the C file uses, the values are
natural numbers. -/
structure intel_alsa_ssp_dma_buf where
  addr : Nat
  length : Nat
  period_index_max : Nat
  period_req_index : Nat
  period_cb_index : Nat
  deriving DecidableEq, Repr

/-- Modelled from the spec: the bit numbers `INTEL_ALSA_SSP_STREAM_STARTED` and
`INTEL_ALSA_SSP_STREAM_INIT` of the `stream_status` word are declared in the
missing header.  The spec describes the word as two independent flags, STARTED
and DMA_INITIALIZED; each field is the value of one of the two bits. -/
structure stream_status_flags where
  STARTED : Bool
  INIT : Bool
  deriving DecidableEq, Repr

/-- The fields of `struct intel_alsa_ifx_stream_info` the C file uses. -/
structure intel_alsa_ifx_stream_info where
  dma_slot : intel_alsa_ssp_dma_buf
  substream : snd_pcm_substream
  stream_status : stream_status_flags
  device_id : Nat
  stream_index : Nat
  deriving DecidableEq, Repr

/-- The global `struct intel_alsa_stream_status s_streamifx_status`:
`ssp_handle` is `none` for the NULL pointer, `stream_info` is the bit field of
open substreams. -/
structure intel_alsa_stream_status where
  ssp_handle : Option Nat
  stream_info : Nat
  deriving DecidableEq, Repr

/-- One element of the scatter-gather list, `struct intel_mid_i2s_lli`. -/
structure intel_mid_i2s_lli where
  addr : Nat
  leng : Nat
  deriving DecidableEq, Repr

/-- The commands of `intel_mid_i2s_command` the C file sends. -/
inductive ssp_cmd where
  | SSP_CMD_SET_HW_CONFIG
  | SSP_CMD_ALLOC_TX
  | SSP_CMD_ALLOC_RX
  | SSP_CMD_FREE_TX
  | SSP_CMD_FREE_RX
  | SSP_CMD_ENABLE_SSP
  | SSP_CMD_ENABLE_DMA_TX_INTR
  | SSP_CMD_ENABLE_DMA_RX_INTR
  | SSP_CMD_DISABLE_DMA_TX_INTR
  | SSP_CMD_DISABLE_DMA_RX_INTR
  deriving DecidableEq, Repr

/-- A call to the Intel MID I2S driver, with its arguments.
* `intel_mid_i2s_open` is always called with `SSP_USAGE_MODEM`;
* the `arg` of `intel_mid_i2s_command` is `some device_id` for
  `&a_alsa_ifx_stream_settings[device_id]` and `none` for NULL;
* `intel_mid_i2s_set_wr_cb` and `intel_mid_i2s_set_rd_cb` always register
  `intel_alsa_ifx_dma_playback_complete` and
  `intel_alsa_ifx_dma_capture_complete`;
* the list requests are always made with `I2S_CIRCULAR_MODE`; `sg_table` is
  `none` for a NULL table, `count` is the length argument and `param` the
  stream structure handed over as callback parameter. -/
inductive HwCall where
  | intel_mid_i2s_open
  | intel_mid_i2s_close (handle : Option Nat)
  | intel_mid_i2s_command (handle : Option Nat) (cmd : ssp_cmd) (arg : Option Nat)
  | intel_mid_i2s_set_wr_cb (handle : Option Nat)
  | intel_mid_i2s_set_rd_cb (handle : Option Nat)
  | intel_mid_i2s_lli_wr_req (handle : Option Nat)
      (sg_table : Option (List intel_mid_i2s_lli)) (count : Nat)
      (param : intel_alsa_ifx_stream_info)
  | intel_mid_i2s_lli_rd_req (handle : Option Nat)
      (sg_table : Option (List intel_mid_i2s_lli)) (count : Nat)
      (param : intel_alsa_ifx_stream_info)
  deriving DecidableEq, Repr

/-- What the environment answers during one call of a driver function: the
handle `intel_mid_i2s_open` returns (`none` for NULL), the status of
`intel_mid_i2s_command` for each command, the status of the two callback
registrations, and whether `kzalloc` returns memory. -/
structure HwEnv where
  i2s_open_ret : Option Nat
  i2s_command_ret : ssp_cmd → Int
  set_wr_cb_ret : Int
  set_rd_cb_ret : Int
  kzalloc_ok : Bool

/-- The control identifiers of `intel_alsa_ifx_control`, and any other value of
its `int command` argument (the `default:` branch). -/
inductive ctrl_id where
  | INTEL_ALSA_SSP_CTRL_SND_OPEN
  | INTEL_ALSA_SSP_CTRL_SND_PAUSE
  | INTEL_ALSA_SSP_CTRL_SND_RESUME
  | INTEL_ALSA_SSP_CTRL_SND_CLOSE
  | other (value : Int)
  deriving DecidableEq, Repr

/-- Outcome of a control-path function: return code, the global afterwards, the
stream structure afterwards (`none` when the pointer was NULL), and the calls
made to the I2S driver. -/
structure CtlResult where
  ret : Int
  status : intel_alsa_stream_status
  str_info : Option intel_alsa_ifx_stream_info
  calls : List HwCall
  deriving DecidableEq, Repr

/-- Outcome of a DMA request function: `ret` is `none` when the function does
not return because it stores through a NULL pointer; `calls` are the calls
made to the I2S driver up to there. -/
structure ReqResult where
  ret : Option Int
  calls : List HwCall
  deriving DecidableEq, Repr

/-- Outcome of a DMA completion callback: return code, the stream structure
afterwards, and the substreams `snd_pcm_period_elapsed` was called on. -/
structure CbResult where
  ret : Int
  str_info : Option intel_alsa_ifx_stream_info
  elapsed : List snd_pcm_substream
  deriving DecidableEq, Repr

/-! ## The driver functions -/

/-- `intel_alsa_reset_ifx_status`: the value it gives the global. -/
def intel_alsa_reset_ifx_status : intel_alsa_stream_status :=
  { ssp_handle := none, stream_info := 0 }

/-- The `switch (str_info->substream->stream)` that ends `intel_alsa_ifx_open`:
allocation of the DMA channel of the direction.  `calls` are the calls made
before. -/
def intel_alsa_ifx_open_alloc (hw : HwEnv) (st : intel_alsa_stream_status)
    (s : intel_alsa_ifx_stream_info) (calls : List HwCall) : CtlResult :=
  match s.substream.stream with
  | .SNDRV_PCM_STREAM_PLAYBACK =>
    let calls := calls ++ [.intel_mid_i2s_command st.ssp_handle .SSP_CMD_ALLOC_TX none]
    if hw.i2s_command_ret .SSP_CMD_ALLOC_TX ≠ 0 then
      { ret := -EBUSY, status := st, str_info := some s, calls := calls }
    else
      { ret := 0, status := st, str_info := some s, calls := calls }
  | .SNDRV_PCM_STREAM_CAPTURE =>
    let calls := calls ++ [.intel_mid_i2s_command st.ssp_handle .SSP_CMD_ALLOC_RX none]
    if hw.i2s_command_ret .SSP_CMD_ALLOC_RX ≠ 0 then
      { ret := -EBUSY, status := st, str_info := some s, calls := calls }
    else
      { ret := 0, status := st, str_info := some s, calls := calls }
  | .other _ =>
    { ret := -EINVAL, status := st, str_info := some s, calls := calls }

/-- `intel_alsa_ifx_open`. -/
def intel_alsa_ifx_open (hw : HwEnv) (st : intel_alsa_stream_status)
    (str_info : Option intel_alsa_ifx_stream_info) : CtlResult :=
  match str_info with
  | none => { ret := -EINVAL, status := st, str_info := none, calls := [] }
  | some s0 =>
    let s : intel_alsa_ifx_stream_info :=
      { s0 with dma_slot := { s0.dma_slot with period_req_index := 0, period_cb_index := 0 } }
    if st.stream_info = 0 then
      -- open_ifx = true
      let st1 := { st with stream_info := set_bit s.stream_index st.stream_info }
      let st2 := { st1 with ssp_handle := hw.i2s_open_ret }
      let calls : List HwCall :=
        [.intel_mid_i2s_open,
         .intel_mid_i2s_command st2.ssp_handle .SSP_CMD_SET_HW_CONFIG (some s.device_id),
         .intel_mid_i2s_set_wr_cb st2.ssp_handle]
      if hw.set_wr_cb_ret ≠ 0 then
        { ret := -EINVAL, status := st2, str_info := some s, calls := calls }
      else
        let calls := calls ++ [.intel_mid_i2s_set_rd_cb st2.ssp_handle]
        if hw.set_rd_cb_ret ≠ 0 then
          { ret := -EINVAL, status := st2, str_info := some s, calls := calls }
        else
          intel_alsa_ifx_open_alloc hw st2 s calls
    else if (s.stream_index = 0 ∧ test_bit 1 st.stream_info = true) ∨
            (s.stream_index = 1 ∧ test_bit 0 st.stream_info = true) then
      -- already open by the sibling substream: open_ifx = false
      let st1 := { st with stream_info := set_bit s.stream_index st.stream_info }
      intel_alsa_ifx_open_alloc hw st1 s []
    else
      { ret := -EBUSY, status := st, str_info := some s, calls := [] }

/-- `intel_alsa_ifx_close`. -/
def intel_alsa_ifx_close (_hw : HwEnv) (st : intel_alsa_stream_status)
    (str_info : Option intel_alsa_ifx_stream_info) : CtlResult :=
  match str_info with
  | none => { ret := -EINVAL, status := st, str_info := none, calls := [] }
  | some s =>
    if st.ssp_handle = none then
      { ret := -EINVAL, status := st, str_info := some s, calls := [] }
    else if st.stream_info = 0 then
      { ret := -EBUSY, status := st, str_info := some s, calls := [] }
    else
      let st1 := { st with stream_info := clear_bit s.stream_index st.stream_info }
      let close_ifx : Bool := decide (st1.stream_info = 0)
      let released : Option (List HwCall) :=
        match s.substream.stream with
        | .SNDRV_PCM_STREAM_PLAYBACK =>
          some [.intel_mid_i2s_command st1.ssp_handle .SSP_CMD_FREE_TX none]
        | .SNDRV_PCM_STREAM_CAPTURE =>
          some [.intel_mid_i2s_command st1.ssp_handle .SSP_CMD_FREE_RX none]
        | .other _ => none
      match released with
      | none => { ret := -EINVAL, status := st1, str_info := some s, calls := [] }
      | some calls =>
        let s1 : intel_alsa_ifx_stream_info :=
          { s with stream_status := { s.stream_status with INIT := false } }
        if close_ifx then
          { ret := 0, status := { st1 with ssp_handle := none }, str_info := some s1,
            calls := calls ++ [.intel_mid_i2s_close st1.ssp_handle] }
        else
          { ret := 0, status := st1, str_info := some s1, calls := calls }

/-- `intel_alsa_ifx_control`.  `retval` starts at 0; only the OPEN case assigns
it. -/
def intel_alsa_ifx_control (hw : HwEnv) (command : ctrl_id)
    (st : intel_alsa_stream_status)
    (str_info : Option intel_alsa_ifx_stream_info) : CtlResult :=
  match command with
  | .INTEL_ALSA_SSP_CTRL_SND_OPEN => intel_alsa_ifx_open hw st str_info
  | .INTEL_ALSA_SSP_CTRL_SND_PAUSE =>
    { ret := 0, status := st, str_info := str_info, calls := [] }
  | .INTEL_ALSA_SSP_CTRL_SND_RESUME =>
    { ret := 0, status := st, str_info := str_info, calls := [] }
  | .INTEL_ALSA_SSP_CTRL_SND_CLOSE =>
    let r := intel_alsa_ifx_close hw st str_info
    { r with ret := 0 }
  | .other _ =>
    { ret := -EINVAL, status := st, str_info := str_info, calls := [] }

/-- The value an `int` (32 bits, two's complement) holds after a conversion or
an arithmetic operation whose mathematical result is `x`. -/
def wrap_int (x : Int) : Int := (x + 2147483648) % 4294967296 - 2147483648

/-- The value a `u32`, or a pointer of the 32-bit x86 platform of this driver,
holds after a conversion or an arithmetic operation whose mathematical result
is `x`. -/
def wrap_u32 (x : Int) : Nat := (x % 4294967296).toNat

/-- The two stores of one turn of the loop of the request functions:
`sg_table[i].addr = (u32 *)(sb->addr + tx_length * i)` and
`sg_table[i].leng = (u32)sb->length`, where `int tx_length = sb->length` and
`int i`: the product is an `int` product, the sum is a 32-bit pointer counted
in bytes, the length is converted to `u32`. -/
def sg_entry (sb : intel_alsa_ssp_dma_buf) (i : Nat) : intel_mid_i2s_lli :=
  let tx_length : Int := wrap_int sb.length
  { addr := wrap_u32 (sb.addr + wrap_int (tx_length * wrap_int i)),
    leng := wrap_u32 sb.length }

/-- The loop `for (i = 0; i < period_index_max; i++)` of the two request
functions, run on the table `kzalloc` returned (all entries zero): step `i`
stores the address and the length of period `i` into entry `i`. -/
def sg_table_fill (sb : intel_alsa_ssp_dma_buf) (sg_table : List intel_mid_i2s_lli) :
    List intel_mid_i2s_lli :=
  (List.range sb.period_index_max).foldl (fun tbl i => tbl.set i (sg_entry sb i)) sg_table

/-- The table `kzalloc(sizeof(struct intel_mid_i2s_lli) * period_index_max)`
returns when it succeeds. -/
def kzalloc_sg_table (sb : intel_alsa_ssp_dma_buf) : List intel_mid_i2s_lli :=
  List.replicate sb.period_index_max { addr := 0, leng := 0 }

/-- `intel_alsa_ifx_dma_playback_req`. -/
def intel_alsa_ifx_dma_playback_req (hw : HwEnv) (st : intel_alsa_stream_status)
    (str_info : intel_alsa_ifx_stream_info) : ReqResult :=
  if st.ssp_handle = none then
    { ret := some (-EINVAL), calls := [] }
  else if str_info.stream_status.STARTED = false then
    { ret := some 0, calls := [] }
  else if str_info.stream_status.INIT = false then
    let sb_tx := str_info.dma_slot
    if hw.kzalloc_ok = false then
      { ret := some (-EINVAL), calls := [] }
    else
      let sg_table := sg_table_fill sb_tx (kzalloc_sg_table sb_tx)
      { ret := some 0,
        calls :=
          [.intel_mid_i2s_lli_wr_req st.ssp_handle (some sg_table) sb_tx.period_index_max
             str_info,
           .intel_mid_i2s_command st.ssp_handle .SSP_CMD_ENABLE_SSP none,
           .intel_mid_i2s_command st.ssp_handle .SSP_CMD_ENABLE_DMA_TX_INTR none] }
  else
    { ret := some 0,
      calls := [.intel_mid_i2s_command st.ssp_handle .SSP_CMD_ENABLE_DMA_TX_INTR none] }

/-- `intel_alsa_ifx_dma_capture_req`.  The result of `kzalloc` is not tested:
with a NULL table the first store of the loop goes through NULL; with a NULL
table and no period the loop body never runs. -/
def intel_alsa_ifx_dma_capture_req (hw : HwEnv) (st : intel_alsa_stream_status)
    (str_info : intel_alsa_ifx_stream_info) : ReqResult :=
  if st.ssp_handle = none then
    { ret := some (-EINVAL), calls := [] }
  else if str_info.stream_status.STARTED = false then
    { ret := some 0, calls := [] }
  else if str_info.stream_status.INIT = false then
    let sb_rx := str_info.dma_slot
    let sg_table : Option (List intel_mid_i2s_lli) :=
      if hw.kzalloc_ok then some (kzalloc_sg_table sb_rx) else none
    match sg_table with
    | none =>
      if 0 < sb_rx.period_index_max then
        { ret := none, calls := [] }
      else
        { ret := some 0,
          calls :=
            [.intel_mid_i2s_lli_rd_req st.ssp_handle none sb_rx.period_index_max str_info,
             .intel_mid_i2s_command st.ssp_handle .SSP_CMD_ENABLE_SSP none,
             .intel_mid_i2s_command st.ssp_handle .SSP_CMD_ENABLE_DMA_RX_INTR none] }
    | some tbl =>
      { ret := some 0,
        calls :=
          [.intel_mid_i2s_lli_rd_req st.ssp_handle (some (sg_table_fill sb_rx tbl))
             sb_rx.period_index_max str_info,
           .intel_mid_i2s_command st.ssp_handle .SSP_CMD_ENABLE_SSP none,
           .intel_mid_i2s_command st.ssp_handle .SSP_CMD_ENABLE_DMA_RX_INTR none] }
  else
    { ret := some 0,
      calls := [.intel_mid_i2s_command st.ssp_handle .SSP_CMD_ENABLE_DMA_RX_INTR none] }

/-- The statement `if (++(sb->period_cb_index) >= sb->period_index_max)
sb->period_cb_index = 0;` of the two completion callbacks. -/
def period_cb_advance (sb : intel_alsa_ssp_dma_buf) : intel_alsa_ssp_dma_buf :=
  let sb1 := { sb with period_cb_index := sb.period_cb_index + 1 }
  if sb1.period_cb_index ≥ sb1.period_index_max then
    { sb1 with period_cb_index := 0 }
  else
    sb1

/-- `intel_alsa_ifx_dma_playback_complete`; `param` is `none` for NULL. -/
def intel_alsa_ifx_dma_playback_complete (param : Option intel_alsa_ifx_stream_info) :
    CbResult :=
  match param with
  | none => { ret := -EBUSY, str_info := none, elapsed := [] }
  | some str_info =>
    let s1 := { str_info with dma_slot := period_cb_advance str_info.dma_slot }
    if s1.stream_status.STARTED = true then
      { ret := 0, str_info := some s1, elapsed := [s1.substream] }
    else
      { ret := 0, str_info := some s1, elapsed := [] }

/-- `intel_alsa_ifx_dma_capture_complete`; `param` is `none` for NULL. -/
def intel_alsa_ifx_dma_capture_complete (param : Option intel_alsa_ifx_stream_info) :
    CbResult :=
  match param with
  | none => { ret := -EBUSY, str_info := none, elapsed := [] }
  | some str_info =>
    let s1 := { str_info with dma_slot := period_cb_advance str_info.dma_slot }
    if s1.stream_status.STARTED = true then
      { ret := 0, str_info := some s1, elapsed := [s1.substream] }
    else
      { ret := 0, str_info := some s1, elapsed := [] }

/-- `intel_alsa_ifx_configure_ssp_dma_intr`: return code and calls. -/
def intel_alsa_ifx_configure_ssp_dma_intr (st : intel_alsa_stream_status)
    (str_info : intel_alsa_ifx_stream_info) : ReqResult :=
  if st.ssp_handle = none then
    { ret := some (-EINVAL), calls := [] }
  else
    { ret := some 0,
      calls :=
        [.intel_mid_i2s_command st.ssp_handle
           (if str_info.substream.stream = .SNDRV_PCM_STREAM_PLAYBACK then
              .SSP_CMD_DISABLE_DMA_TX_INTR
            else .SSP_CMD_DISABLE_DMA_RX_INTR) none] }

/-! ## Sequences of control commands -/

/-- One control command: what the hardware answers while it runs, the command
and the stream structure it is issued for. -/
structure Step where
  hw : HwEnv
  command : ctrl_id
  str_info : intel_alsa_ifx_stream_info

/-- Run a list of commands from a state: the outcome of every command, in
order.  Each command starts from the global the previous one left. -/
def run_steps : intel_alsa_stream_status → List Step → List CtlResult
  | _, [] => []
  | st, x :: xs =>
    let r := intel_alsa_ifx_control x.hw x.command st (some x.str_info)
    r :: run_steps r.status xs

/-- The global after a list of commands. -/
def final_status : intel_alsa_stream_status → List Step → intel_alsa_stream_status
  | st, [] => st
  | st, x :: xs =>
    final_status (intel_alsa_ifx_control x.hw x.command st (some x.str_info)).status xs

/-- All calls to the I2S driver made by a list of outcomes, in order. -/
def hw_trace : List CtlResult → List HwCall
  | [] => []
  | r :: rs => r.calls ++ hw_trace rs

/-- The bit field of open substreams after each outcome. -/
def mask_history (rs : List CtlResult) : List Nat :=
  rs.map (fun r => r.status.stream_info)

/-- Number of calls of `intel_mid_i2s_open` in a trace. -/
def hw_open_count : List HwCall → Nat
  | [] => 0
  | .intel_mid_i2s_open :: cs => hw_open_count cs + 1
  | _ :: cs => hw_open_count cs

/-- Number of calls of `intel_mid_i2s_close` in a trace. -/
def hw_close_count : List HwCall → Nat
  | [] => 0
  | .intel_mid_i2s_close _ :: cs => hw_close_count cs + 1
  | _ :: cs => hw_close_count cs

/-- Number of maximal runs of consecutive non-zero masks in a history that
follows the mask `prev`: a run starts at every non-zero mask that follows a
zero mask. -/
def nonempty_runs : Nat → List Nat → Nat
  | _, [] => 0
  | prev, m :: ms => (if prev = 0 ∧ m ≠ 0 then 1 else 0) + nonempty_runs m ms

/-- Number of transitions from a non-zero mask to the zero mask in a history
that follows the mask `prev`. -/
def empty_transitions : Nat → List Nat → Nat
  | _, [] => 0
  | prev, m :: ms => (if prev ≠ 0 ∧ m = 0 then 1 else 0) + empty_transitions m ms

/-- The direction is one of the two the driver supports. -/
def valid_stream (s : intel_alsa_ifx_stream_info) : Prop :=
  s.substream.stream = .SNDRV_PCM_STREAM_PLAYBACK ∨
  s.substream.stream = .SNDRV_PCM_STREAM_CAPTURE

instance (s : intel_alsa_ifx_stream_info) : Decidable (valid_stream s) := by
  unfold valid_stream; infer_instance

/-! ## Sequences of completion callbacks -/

/-- One DMA completion: which callback fires (`capture = false` for the
playback callback) and the value of the STARTED flag at that moment. -/
structure Completion where
  capture : Bool
  started : Bool

/-- The completion callback of a direction. -/
def completion_cb (capture : Bool) (param : Option intel_alsa_ifx_stream_info) : CbResult :=
  if capture then intel_alsa_ifx_dma_capture_complete param
  else intel_alsa_ifx_dma_playback_complete param

/-- Call a completion callback `k` times in a row on a stream structure. -/
def complete_times (capture : Bool) :
    Nat → intel_alsa_ifx_stream_info → intel_alsa_ifx_stream_info
  | 0, s => s
  | k + 1, s => complete_times capture k ((completion_cb capture (some s)).str_info.getD s)

/-- Run a list of completions on a stream structure whose STARTED flag is set
or cleared between the callbacks as the list says: all period-elapsed
notifications, in order. -/
def run_completions : List Completion → intel_alsa_ifx_stream_info → List snd_pcm_substream
  | [], _ => []
  | c :: cs, s =>
    let r := completion_cb c.capture
      (some { s with stream_status := { s.stream_status with STARTED := c.started } })
    r.elapsed ++ run_completions cs (r.str_info.getD s)

/-- Number of completions of a list made while STARTED was set. -/
def started_count : List Completion → Nat
  | [] => 0
  | c :: cs => (if c.started then 1 else 0) + started_count cs

/-! ## Sample values -/

/-- A hardware environment in which every call succeeds; `intel_mid_i2s_open`
returns the handle 1. -/
def hw_ok : HwEnv :=
  { i2s_open_ret := some 1, i2s_command_ret := fun _ => 0, set_wr_cb_ret := 0,
    set_rd_cb_ret := 0, kzalloc_ok := true }

/-- A hardware environment in which `intel_mid_i2s_open` returns NULL. -/
def hw_open_null : HwEnv := { hw_ok with i2s_open_ret := none }

/-- The buffer of the worked example: 4 periods of 256 bytes at 0x1000. -/
def sample_buf : intel_alsa_ssp_dma_buf :=
  { addr := 0x1000, length := 256, period_index_max := 4, period_req_index := 0,
    period_cb_index := 0 }

/-- BT capture: substream index 0, direction capture. -/
def bt_capture : intel_alsa_ifx_stream_info :=
  { dma_slot := sample_buf, substream := { number := 0, stream := .SNDRV_PCM_STREAM_CAPTURE },
    stream_status := { STARTED := false, INIT := false }, device_id := 0, stream_index := 0 }

/-- BT playback: substream index 1, direction playback. -/
def bt_playback : intel_alsa_ifx_stream_info :=
  { dma_slot := sample_buf, substream := { number := 1, stream := .SNDRV_PCM_STREAM_PLAYBACK },
    stream_status := { STARTED := false, INIT := false }, device_id := 0, stream_index := 1 }

/-- FM capture: substream index 2, direction capture. -/
def fm_capture : intel_alsa_ifx_stream_info :=
  { dma_slot := sample_buf, substream := { number := 2, stream := .SNDRV_PCM_STREAM_CAPTURE },
    stream_status := { STARTED := false, INIT := false }, device_id := 1, stream_index := 2 }

/-- A session: BT capture and BT playback share the channel and leave it, then
FM capture takes it and leaves it. -/
def sample_steps : List Step :=
  [ { hw := hw_ok, command := .INTEL_ALSA_SSP_CTRL_SND_OPEN, str_info := bt_capture },
    { hw := hw_ok, command := .INTEL_ALSA_SSP_CTRL_SND_OPEN, str_info := bt_playback },
    { hw := hw_ok, command := .INTEL_ALSA_SSP_CTRL_SND_CLOSE, str_info := bt_capture },
    { hw := hw_ok, command := .INTEL_ALSA_SSP_CTRL_SND_CLOSE, str_info := bt_playback },
    { hw := hw_ok, command := .INTEL_ALSA_SSP_CTRL_SND_OPEN, str_info := fm_capture },
    { hw := hw_ok, command := .INTEL_ALSA_SSP_CTRL_SND_CLOSE, str_info := fm_capture } ]

/-- The invariant of the spec: the handle is present exactly when the mask is
not empty. -/
def handle_iff_mask (st : intel_alsa_stream_status) : Prop :=
  st.ssp_handle ≠ none ↔ st.stream_info ≠ 0

instance (st : intel_alsa_stream_status) : Decidable (handle_iff_mask st) := by
  unfold handle_iff_mask; infer_instance

/-- A command under which the invariant is kept: an OPEN during which
`intel_mid_i2s_open` does not return NULL, a CLOSE on a substream whose
direction is playback or capture, or any other command. -/
def well_behaved (x : Step) : Prop :=
  (x.command = .INTEL_ALSA_SSP_CTRL_SND_OPEN → x.hw.i2s_open_ret ≠ none) ∧
  (x.command = .INTEL_ALSA_SSP_CTRL_SND_CLOSE → valid_stream x.str_info)

instance (x : Step) : Decidable (well_behaved x) := by
  unfold well_behaved; infer_instance

/-- A hardware environment in which the registration of the write callback
fails and every other call succeeds. -/
def hw_wr_cb_fail : HwEnv := { hw_ok with set_wr_cb_ret := -1 }

/-- A hardware environment in which the DMA channel allocation commands fail
and every other call succeeds. -/
def hw_alloc_fail : HwEnv :=
  { hw_ok with
    i2s_command_ret := fun c =>
      if c = .SSP_CMD_ALLOC_TX ∨ c = .SSP_CMD_ALLOC_RX then -1 else 0 }

/-- A hardware environment in which `kzalloc` returns NULL. -/
def hw_no_mem : HwEnv := { hw_ok with kzalloc_ok := false }

/-- A stream structure on slot 0 whose direction is neither playback nor
capture. -/
def bad_direction : intel_alsa_ifx_stream_info :=
  { bt_capture with substream := { number := 0, stream := .other 7 } }

/-- BT capture, started, its DMA not yet initialised, on the sample buffer. -/
def bt_capture_started : intel_alsa_ifx_stream_info :=
  { bt_capture with stream_status := { STARTED := true, INIT := false } }

/-- The request is admitted by `intel_alsa_ifx_open`: the mask is empty, or the
request comes from slot 0 while bit 1 is held or from slot 1 while bit 0 is
held. -/
def admitted (st : intel_alsa_stream_status) (s : intel_alsa_ifx_stream_info) : Prop :=
  st.stream_info = 0 ∨
  (s.stream_index = 0 ∧ test_bit 1 st.stream_info = true) ∨
  (s.stream_index = 1 ∧ test_bit 0 st.stream_info = true)

instance (st : intel_alsa_stream_status) (s : intel_alsa_ifx_stream_info) :
    Decidable (admitted st s) := by
  unfold admitted; infer_instance

/-- The outcome `r` of an open on `s` contains the DMA channel allocation
command of the direction of `s`, and the hardware answered it with a non-zero
status. -/
def alloc_command_failed (hw : HwEnv) (r : CtlResult) (s : intel_alsa_ifx_stream_info) :
    Prop :=
  (s.substream.stream = .SNDRV_PCM_STREAM_PLAYBACK ∧
    HwCall.intel_mid_i2s_command r.status.ssp_handle .SSP_CMD_ALLOC_TX none ∈ r.calls ∧
    hw.i2s_command_ret .SSP_CMD_ALLOC_TX ≠ 0) ∨
  (s.substream.stream = .SNDRV_PCM_STREAM_CAPTURE ∧
    HwCall.intel_mid_i2s_command r.status.ssp_handle .SSP_CMD_ALLOC_RX none ∈ r.calls ∧
    hw.i2s_command_ret .SSP_CMD_ALLOC_RX ≠ 0)

instance (hw : HwEnv) (r : CtlResult) (s : intel_alsa_ifx_stream_info) :
    Decidable (alloc_command_failed hw r s) := by
  unfold alloc_command_failed; infer_instance

/-- The masks FM/BT exclusion allows: no slot, BT capture, BT playback, both
BT slots, or FM capture alone. -/
def allowed_mask (m : Nat) : Prop := m = 0 ∨ m = 1 ∨ m = 2 ∨ m = 3 ∨ m = 4

instance (m : Nat) : Decidable (allowed_mask m) := by
  unfold allowed_mask; infer_instance

/-- The DMA channel release command of `intel_alsa_ifx_close` for a direction:
`SSP_CMD_FREE_TX` in the playback case, `SSP_CMD_FREE_RX` in the capture
case. -/
def free_cmd (s : intel_alsa_ifx_stream_info) : ssp_cmd :=
  if s.substream.stream = .SNDRV_PCM_STREAM_PLAYBACK then .SSP_CMD_FREE_TX
  else .SSP_CMD_FREE_RX

/-- The DMA channel allocation command of `intel_alsa_ifx_open` for a
direction: `SSP_CMD_ALLOC_TX` in the playback case, `SSP_CMD_ALLOC_RX` in the
capture case. -/
def alloc_cmd (s : intel_alsa_ifx_stream_info) : ssp_cmd :=
  if s.substream.stream = .SNDRV_PCM_STREAM_PLAYBACK then .SSP_CMD_ALLOC_TX
  else .SSP_CMD_ALLOC_RX

/-- The stream structure as `intel_alsa_ifx_open` leaves it: both period
indices are 0. -/
def opened (s : intel_alsa_ifx_stream_info) : intel_alsa_ifx_stream_info :=
  { s with dma_slot := { s.dma_slot with period_req_index := 0, period_cb_index := 0 } }

/-! ## Theorems -/

/-- C1: in a state whose mask is not empty, an open request from a slot that
is neither slot 0 with bit 1 held nor slot 1 with bit 0 held returns `-EBUSY`,
leaves the mask (and the whole global) as it was and makes no call to the I2S
driver. -/
theorem open_incompatible_busy (hw : HwEnv) (st : intel_alsa_stream_status)
    (s : intel_alsa_ifx_stream_info) (hmask : st.stream_info ≠ 0)
    (h0 : ¬ (s.stream_index = 0 ∧ test_bit 1 st.stream_info = true))
    (h1 : ¬ (s.stream_index = 1 ∧ test_bit 0 st.stream_info = true)) :
    (intel_alsa_ifx_open hw st (some s)).ret = -EBUSY ∧
    (intel_alsa_ifx_open hw st (some s)).status.stream_info = st.stream_info ∧
    (intel_alsa_ifx_open hw st (some s)).status = st ∧
    (intel_alsa_ifx_open hw st (some s)).calls = [] := by
  have hc : ¬ ((s.stream_index = 0 ∧ test_bit 1 st.stream_info = true) ∨
      (s.stream_index = 1 ∧ test_bit 0 st.stream_info = true)) := by
    rintro (h | h)
    · exact h0 h
    · exact h1 h
  simp [intel_alsa_ifx_open, hmask, hc]

/-- Witness of C1: FM capture (slot 2) asks while BT capture (bit 0) holds the
channel. -/
theorem open_incompatible_busy_witness :
    (intel_alsa_ifx_open hw_ok ⟨some 1, 1⟩ (some fm_capture)).ret = -EBUSY ∧
    (intel_alsa_ifx_open hw_ok ⟨some 1, 1⟩ (some fm_capture)).status.stream_info = 1 ∧
    (intel_alsa_ifx_open hw_ok ⟨some 1, 1⟩ (some fm_capture)).status = ⟨some 1, 1⟩ ∧
    (intel_alsa_ifx_open hw_ok ⟨some 1, 1⟩ (some fm_capture)).calls = [] :=
  open_incompatible_busy hw_ok ⟨some 1, 1⟩ fm_capture (by decide) (by decide) (by decide)

/-! ### Bit lemmas -/

/-- The bit just set is set. -/
theorem test_bit_set_bit_self (nr word : Nat) : test_bit nr (set_bit nr word) = true := by
  simp [test_bit, set_bit, Nat.one_shiftLeft, Nat.testBit_two_pow_self]

/-- A word in which a bit was just set is not zero. -/
theorem set_bit_ne_zero (nr word : Nat) : set_bit nr word ≠ 0 := by
  intro h
  have hb := test_bit_set_bit_self nr word
  rw [h] at hb
  simp [test_bit] at hb

/-! ### Counting lemmas -/

theorem hw_open_count_append (xs ys : List HwCall) :
    hw_open_count (xs ++ ys) = hw_open_count xs + hw_open_count ys := by
  induction xs with
  | nil => simp [hw_open_count]
  | cons c cs ih =>
    (cases c <;> simp [hw_open_count, ih]); omega

theorem hw_close_count_append (xs ys : List HwCall) :
    hw_close_count (xs ++ ys) = hw_close_count xs + hw_close_count ys := by
  induction xs with
  | nil => simp [hw_close_count]
  | cons c cs ih =>
    (cases c <;> simp [hw_close_count, ih]); omega

/-- The allocation step leaves the global as it is. -/
theorem open_alloc_status (hw : HwEnv) (st : intel_alsa_stream_status)
    (s : intel_alsa_ifx_stream_info) (calls : List HwCall) :
    (intel_alsa_ifx_open_alloc hw st s calls).status = st := by
  unfold intel_alsa_ifx_open_alloc
  cases s.substream.stream <;> simp only [] <;> (try split_ifs) <;> rfl

/-- The allocation step leaves the stream structure as it is. -/
theorem open_alloc_str_info (hw : HwEnv) (st : intel_alsa_stream_status)
    (s : intel_alsa_ifx_stream_info) (calls : List HwCall) :
    (intel_alsa_ifx_open_alloc hw st s calls).str_info = some s := by
  unfold intel_alsa_ifx_open_alloc
  cases s.substream.stream <;> simp only [] <;> (try split_ifs) <;> rfl

/-- The allocation step adds at most one call, the allocation command of the
direction. -/
theorem open_alloc_calls (hw : HwEnv) (st : intel_alsa_stream_status)
    (s : intel_alsa_ifx_stream_info) (calls : List HwCall) :
    (intel_alsa_ifx_open_alloc hw st s calls).calls =
      calls ++
        (match s.substream.stream with
         | .SNDRV_PCM_STREAM_PLAYBACK =>
           [.intel_mid_i2s_command st.ssp_handle .SSP_CMD_ALLOC_TX none]
         | .SNDRV_PCM_STREAM_CAPTURE =>
           [.intel_mid_i2s_command st.ssp_handle .SSP_CMD_ALLOC_RX none]
         | .other _ => []) := by
  unfold intel_alsa_ifx_open_alloc
  cases s.substream.stream <;> simp only [] <;> (try split_ifs) <;> simp

/-- The allocation step adds neither a hardware open nor a hardware close. -/
theorem open_alloc_counts (hw : HwEnv) (st : intel_alsa_stream_status)
    (s : intel_alsa_ifx_stream_info) (calls : List HwCall) :
    hw_open_count (intel_alsa_ifx_open_alloc hw st s calls).calls = hw_open_count calls ∧
    hw_close_count (intel_alsa_ifx_open_alloc hw st s calls).calls = hw_close_count calls := by
  rw [open_alloc_calls, hw_open_count_append, hw_close_count_append]
  cases s.substream.stream <;> simp [hw_open_count, hw_close_count]

/-- One open call opens the hardware exactly when it takes the mask from empty
to non-empty, and never closes it. -/
theorem open_step_counts (hw : HwEnv) (st : intel_alsa_stream_status)
    (s : intel_alsa_ifx_stream_info) :
    hw_open_count (intel_alsa_ifx_open hw st (some s)).calls =
      (if st.stream_info = 0 ∧ (intel_alsa_ifx_open hw st (some s)).status.stream_info ≠ 0
        then 1 else 0) ∧
    hw_close_count (intel_alsa_ifx_open hw st (some s)).calls = 0 ∧
    (st.stream_info ≠ 0 → (intel_alsa_ifx_open hw st (some s)).status.stream_info ≠ 0) := by
  by_cases hm : st.stream_info = 0
  · by_cases hw1 : hw.set_wr_cb_ret = 0
    · by_cases hw2 : hw.set_rd_cb_ret = 0
      · simp [intel_alsa_ifx_open, hm, hw1, hw2, open_alloc_status, open_alloc_counts,
          hw_open_count, hw_close_count, set_bit_ne_zero]
      · simp [intel_alsa_ifx_open, hm, hw1, hw2, hw_open_count, hw_close_count,
          set_bit_ne_zero]
    · simp [intel_alsa_ifx_open, hm, hw1, hw_open_count, hw_close_count, set_bit_ne_zero]
  · by_cases hc : (s.stream_index = 0 ∧ test_bit 1 st.stream_info = true) ∨
        (s.stream_index = 1 ∧ test_bit 0 st.stream_info = true)
    · simp only [intel_alsa_ifx_open, if_neg hm, if_pos hc, open_alloc_status,
        open_alloc_counts]
      simp [hw_open_count, hw_close_count, set_bit_ne_zero, hm]
    · simp [intel_alsa_ifx_open, if_neg hm, if_neg hc, hw_open_count, hw_close_count, hm]

/-- One close call on a substream with a valid direction closes the hardware
exactly when it takes the mask from non-empty to empty, and never opens it. -/
theorem close_step_counts (hw : HwEnv) (st : intel_alsa_stream_status)
    (s : intel_alsa_ifx_stream_info) (hv : valid_stream s) :
    hw_open_count (intel_alsa_ifx_close hw st (some s)).calls = 0 ∧
    hw_close_count (intel_alsa_ifx_close hw st (some s)).calls =
      (if st.stream_info ≠ 0 ∧ (intel_alsa_ifx_close hw st (some s)).status.stream_info = 0
        then 1 else 0) ∧
    (st.stream_info = 0 → (intel_alsa_ifx_close hw st (some s)).status.stream_info = 0) := by
  by_cases hh : st.ssp_handle = none
  · by_cases hm : st.stream_info = 0 <;>
      simp [intel_alsa_ifx_close, hh, hw_open_count, hw_close_count, hm]
  · by_cases hm : st.stream_info = 0
    · simp [intel_alsa_ifx_close, hh, hw_open_count, hw_close_count, hm]
    · by_cases hz : clear_bit s.stream_index st.stream_info = 0 <;>
        rcases hv with hv | hv <;>
        simp [intel_alsa_ifx_close, hh, hm, hv, hz, hw_open_count, hw_close_count]

/-- The same for one command of the dispatcher. -/
theorem control_step_counts (hw : HwEnv) (command : ctrl_id) (st : intel_alsa_stream_status)
    (s : intel_alsa_ifx_stream_info) (hv : valid_stream s) :
    hw_open_count (intel_alsa_ifx_control hw command st (some s)).calls =
      (if st.stream_info = 0 ∧
          (intel_alsa_ifx_control hw command st (some s)).status.stream_info ≠ 0
        then 1 else 0) ∧
    hw_close_count (intel_alsa_ifx_control hw command st (some s)).calls =
      (if st.stream_info ≠ 0 ∧
          (intel_alsa_ifx_control hw command st (some s)).status.stream_info = 0
        then 1 else 0) := by
  cases command with
  | INTEL_ALSA_SSP_CTRL_SND_OPEN =>
    obtain ⟨h1, h2, h3⟩ := open_step_counts hw st s
    simp only [intel_alsa_ifx_control]
    refine ⟨h1, ?_⟩
    rw [h2]
    by_cases hm : st.stream_info = 0
    · simp [hm]
    · simp [h3 hm]
  | INTEL_ALSA_SSP_CTRL_SND_CLOSE =>
    obtain ⟨h1, h2, h3⟩ := close_step_counts hw st s hv
    simp only [intel_alsa_ifx_control]
    refine ⟨?_, h2⟩
    rw [h1]
    by_cases hm : st.stream_info = 0
    · simp [h3 hm]
    · simp [hm]
  | INTEL_ALSA_SSP_CTRL_SND_PAUSE => simp [intel_alsa_ifx_control, hw_open_count, hw_close_count]
  | INTEL_ALSA_SSP_CTRL_SND_RESUME => simp [intel_alsa_ifx_control, hw_open_count, hw_close_count]
  | other v => simp [intel_alsa_ifx_control, hw_open_count, hw_close_count]

/-- The counting property from any starting state. -/
theorem run_steps_counts (xs : List Step) :
    ∀ st : intel_alsa_stream_status, (∀ x ∈ xs, valid_stream x.str_info) →
      hw_open_count (hw_trace (run_steps st xs)) =
        nonempty_runs st.stream_info (mask_history (run_steps st xs)) ∧
      hw_close_count (hw_trace (run_steps st xs)) =
        empty_transitions st.stream_info (mask_history (run_steps st xs)) := by
  induction xs with
  | nil => intro st _; simp [run_steps, hw_trace, mask_history, hw_open_count, hw_close_count,
      nonempty_runs, empty_transitions]
  | cons x xs ih =>
    intro st hv
    have hx : valid_stream x.str_info := hv x (List.mem_cons_self _ _)
    have hrest : ∀ y ∈ xs, valid_stream y.str_info := fun y hy => hv y (List.mem_cons_of_mem _ hy)
    obtain ⟨ho, hc⟩ := control_step_counts x.hw x.command st x.str_info hx
    obtain ⟨iho, ihc⟩ :=
      ih (intel_alsa_ifx_control x.hw x.command st (some x.str_info)).status hrest
    simp only [mask_history] at iho ihc
    simp only [run_steps, hw_trace, mask_history, List.map_cons, nonempty_runs,
      empty_transitions, hw_open_count_append, hw_close_count_append]
    rw [ho, hc, iho, ihc]
    exact ⟨rfl, rfl⟩

/-- C2: for every sequence of control commands (OPEN, CLOSE, and the others)
issued from the reset state on substreams whose direction is playback or
capture (as the substreams of the slots 0, 1 and 2 are: BT capture, BT
playback, FM capture), and whatever the hardware answers, the trace contains
exactly one `intel_mid_i2s_open` per maximal run of steps during which the
mask is not empty, and exactly one `intel_mid_i2s_close` per transition of the
mask from non-empty to empty.  The sequences over the slots 0, 1, 2 that
respect the compatibility table are among them. -/
theorem hw_open_close_once_per_interval (xs : List Step)
    (hv : ∀ x ∈ xs, valid_stream x.str_info) :
    hw_open_count (hw_trace (run_steps intel_alsa_reset_ifx_status xs)) =
      nonempty_runs 0 (mask_history (run_steps intel_alsa_reset_ifx_status xs)) ∧
    hw_close_count (hw_trace (run_steps intel_alsa_reset_ifx_status xs)) =
      empty_transitions 0 (mask_history (run_steps intel_alsa_reset_ifx_status xs)) :=
  run_steps_counts xs intel_alsa_reset_ifx_status hv

/-- Witness of C2: in the sample session the hardware is opened twice and
closed twice. -/
theorem hw_open_close_once_per_interval_witness :
    (∀ x ∈ sample_steps, valid_stream x.str_info) ∧
    hw_open_count (hw_trace (run_steps intel_alsa_reset_ifx_status sample_steps)) =
      nonempty_runs 0 (mask_history (run_steps intel_alsa_reset_ifx_status sample_steps)) ∧
    hw_close_count (hw_trace (run_steps intel_alsa_reset_ifx_status sample_steps)) =
      empty_transitions 0 (mask_history (run_steps intel_alsa_reset_ifx_status sample_steps)) :=
  ⟨by decide, hw_open_close_once_per_interval sample_steps (by decide)⟩

/-! ### The handle and the mask -/

/-- An open during which `intel_mid_i2s_open` does not return NULL keeps the
invariant. -/
theorem open_keeps_handle_iff_mask (hw : HwEnv) (st : intel_alsa_stream_status)
    (s : intel_alsa_ifx_stream_info) (hopen : hw.i2s_open_ret ≠ none)
    (hinv : handle_iff_mask st) :
    handle_iff_mask (intel_alsa_ifx_open hw st (some s)).status := by
  unfold handle_iff_mask at *
  by_cases hm : st.stream_info = 0
  · by_cases hw1 : hw.set_wr_cb_ret = 0
    · by_cases hw2 : hw.set_rd_cb_ret = 0
      · simp [intel_alsa_ifx_open, hm, hw1, hw2, open_alloc_status, set_bit_ne_zero, hopen]
      · simp [intel_alsa_ifx_open, hm, hw1, hw2, set_bit_ne_zero, hopen]
    · simp [intel_alsa_ifx_open, hm, hw1, set_bit_ne_zero, hopen]
  · by_cases hc : (s.stream_index = 0 ∧ test_bit 1 st.stream_info = true) ∨
        (s.stream_index = 1 ∧ test_bit 0 st.stream_info = true)
    · simp only [intel_alsa_ifx_open, if_neg hm, if_pos hc, open_alloc_status]
      simp [set_bit_ne_zero, hinv.mpr hm]
    · simp only [intel_alsa_ifx_open, if_neg hm, if_neg hc]
      exact hinv

/-- A close on a substream with a valid direction keeps the invariant. -/
theorem close_keeps_handle_iff_mask (hw : HwEnv) (st : intel_alsa_stream_status)
    (s : intel_alsa_ifx_stream_info) (hv : valid_stream s) (hinv : handle_iff_mask st) :
    handle_iff_mask (intel_alsa_ifx_close hw st (some s)).status := by
  unfold handle_iff_mask at *
  by_cases hh : st.ssp_handle = none
  · simp only [intel_alsa_ifx_close, if_pos hh]
    exact hinv
  · by_cases hm : st.stream_info = 0
    · simp only [intel_alsa_ifx_close, if_neg hh, if_pos hm]
      exact hinv
    · by_cases hz : clear_bit s.stream_index st.stream_info = 0 <;>
        rcases hv with hv | hv <;>
        simp [intel_alsa_ifx_close, hh, hm, hv, hz]

/-- A well-behaved command keeps the invariant. -/
theorem control_keeps_handle_iff_mask (x : Step) (st : intel_alsa_stream_status)
    (hx : well_behaved x) (hinv : handle_iff_mask st) :
    handle_iff_mask (intel_alsa_ifx_control x.hw x.command st (some x.str_info)).status := by
  obtain ⟨ho, hc⟩ := hx
  cases hcmd : x.command with
  | INTEL_ALSA_SSP_CTRL_SND_OPEN =>
    simp only [intel_alsa_ifx_control]
    exact open_keeps_handle_iff_mask x.hw st x.str_info (ho hcmd) hinv
  | INTEL_ALSA_SSP_CTRL_SND_CLOSE =>
    simp only [intel_alsa_ifx_control]
    exact close_keeps_handle_iff_mask x.hw st x.str_info (hc hcmd) hinv
  | INTEL_ALSA_SSP_CTRL_SND_PAUSE => simpa [intel_alsa_ifx_control] using hinv
  | INTEL_ALSA_SSP_CTRL_SND_RESUME => simpa [intel_alsa_ifx_control] using hinv
  | other v => simpa [intel_alsa_ifx_control] using hinv

/-- The invariant is kept along a list of well-behaved commands. -/
theorem final_status_keeps_handle_iff_mask (xs : List Step) :
    ∀ st : intel_alsa_stream_status, (∀ x ∈ xs, well_behaved x) → handle_iff_mask st →
      handle_iff_mask (final_status st xs) := by
  induction xs with
  | nil => intro st _ h; simpa [final_status] using h
  | cons x xs ih =>
    intro st hx hinv
    simp only [final_status]
    exact ih _ (fun y hy => hx y (List.mem_cons_of_mem _ hy))
      (control_keeps_handle_iff_mask x st (hx x (List.mem_cons_self _ _)) hinv)

/-- C3, counterexample: one OPEN of BT capture from the reset state during
which `intel_mid_i2s_open` returns NULL leaves the mask non-empty (bit 0 set)
and the handle absent. -/
theorem handle_iff_mask_fails_after_null_open :
    final_status intel_alsa_reset_ifx_status
        [{ hw := hw_open_null, command := .INTEL_ALSA_SSP_CTRL_SND_OPEN,
           str_info := bt_capture }] = ⟨none, 1⟩ ∧
    ¬ handle_iff_mask (final_status intel_alsa_reset_ifx_status
        [{ hw := hw_open_null, command := .INTEL_ALSA_SSP_CTRL_SND_OPEN,
           str_info := bt_capture }]) := by
  decide

/-- C3, amended: in every state reached from the reset state by a sequence of
commands in which `intel_mid_i2s_open` never returns NULL and every CLOSE is
issued on a substream whose direction is playback or capture, the handle is
present if and only if the mask is not empty. -/
theorem handle_iff_mask_reachable (xs : List Step) (hx : ∀ x ∈ xs, well_behaved x) :
    (final_status intel_alsa_reset_ifx_status xs).ssp_handle ≠ none ↔
      (final_status intel_alsa_reset_ifx_status xs).stream_info ≠ 0 :=
  final_status_keeps_handle_iff_mask xs intel_alsa_reset_ifx_status hx
    (by simp [handle_iff_mask, intel_alsa_reset_ifx_status])

/-- Witness of C3 amended: the sample session, and its first two commands
(after which both sides hold). -/
theorem handle_iff_mask_reachable_witness :
    (∀ x ∈ sample_steps.take 2, well_behaved x) ∧
    ((final_status intel_alsa_reset_ifx_status (sample_steps.take 2)).ssp_handle ≠ none ↔
      (final_status intel_alsa_reset_ifx_status (sample_steps.take 2)).stream_info ≠ 0) :=
  ⟨by decide, handle_iff_mask_reachable (sample_steps.take 2) (by decide)⟩

/-! ### Close on an empty mask -/

/-- C4, counterexample: on two states with an empty mask, close returns two
different codes, and neither is a code of its own: with the handle absent it
is `-EINVAL`, the code close also returns for a NULL stream structure; with a
handle present it is `-EBUSY`, the code open returns for an unsupported
combination of slots. -/
theorem close_empty_mask_two_codes :
    (intel_alsa_ifx_close hw_ok ⟨none, 0⟩ (some bt_capture)).ret = -EINVAL ∧
    (intel_alsa_ifx_close hw_ok ⟨none, 0⟩ none).ret = -EINVAL ∧
    (intel_alsa_ifx_close hw_ok ⟨some 1, 0⟩ (some bt_capture)).ret = -EBUSY ∧
    (intel_alsa_ifx_open hw_ok ⟨some 1, 1⟩ (some fm_capture)).ret = -EBUSY ∧
    (intel_alsa_ifx_close hw_ok ⟨none, 0⟩ (some bt_capture)).ret ≠
      (intel_alsa_ifx_close hw_ok ⟨some 1, 0⟩ (some bt_capture)).ret := by
  decide

/-- C4, amended: in a state whose mask is empty, close on any substream fails,
with `-EINVAL` when the handle is absent and with `-EBUSY` when a handle is
present; it leaves the mask, the handle and the stream structure (its status
flags included) unchanged and makes no call to the I2S driver. -/
theorem close_empty_mask_fails (hw : HwEnv) (st : intel_alsa_stream_status)
    (s : intel_alsa_ifx_stream_info) (hmask : st.stream_info = 0) :
    (intel_alsa_ifx_close hw st (some s)).ret =
      (if st.ssp_handle = none then -EINVAL else -EBUSY) ∧
    (intel_alsa_ifx_close hw st (some s)).ret ≠ 0 ∧
    (intel_alsa_ifx_close hw st (some s)).status = st ∧
    (intel_alsa_ifx_close hw st (some s)).str_info = some s ∧
    (intel_alsa_ifx_close hw st (some s)).calls = [] := by
  by_cases hh : st.ssp_handle = none
  · simp [intel_alsa_ifx_close, hh, EINVAL]
  · simp [intel_alsa_ifx_close, hh, hmask, EBUSY]

/-- Witness of C4 amended: close of BT capture in the reset state. -/
theorem close_empty_mask_fails_witness :
    intel_alsa_reset_ifx_status.stream_info = 0 ∧
    ((intel_alsa_ifx_close hw_ok intel_alsa_reset_ifx_status (some bt_capture)).ret =
      (if intel_alsa_reset_ifx_status.ssp_handle = none then -EINVAL else -EBUSY) ∧
    (intel_alsa_ifx_close hw_ok intel_alsa_reset_ifx_status (some bt_capture)).ret ≠ 0 ∧
    (intel_alsa_ifx_close hw_ok intel_alsa_reset_ifx_status (some bt_capture)).status =
      intel_alsa_reset_ifx_status ∧
    (intel_alsa_ifx_close hw_ok intel_alsa_reset_ifx_status (some bt_capture)).str_info =
      some bt_capture ∧
    (intel_alsa_ifx_close hw_ok intel_alsa_reset_ifx_status (some bt_capture)).calls = []) :=
  ⟨rfl, close_empty_mask_fails hw_ok intel_alsa_reset_ifx_status bt_capture rfl⟩

/-- C5: the dispatcher does not hand the result of close to its caller.  For
CLOSE of BT capture in the reset state, close fails with `-EINVAL` and the
dispatcher returns 0; with a handle present and an empty mask, close fails
with `-EBUSY` and the dispatcher returns 0. -/
theorem control_close_drops_error :
    (intel_alsa_ifx_close hw_ok intel_alsa_reset_ifx_status (some bt_capture)).ret = -EINVAL ∧
    (intel_alsa_ifx_control hw_ok .INTEL_ALSA_SSP_CTRL_SND_CLOSE intel_alsa_reset_ifx_status
      (some bt_capture)).ret = 0 ∧
    (intel_alsa_ifx_close hw_ok ⟨some 1, 0⟩ (some bt_capture)).ret = -EBUSY ∧
    (intel_alsa_ifx_control hw_ok .INTEL_ALSA_SSP_CTRL_SND_CLOSE ⟨some 1, 0⟩
      (some bt_capture)).ret = 0 := by
  decide

/-! ### The scatter-gather list -/

/-- The advance of the completion index keeps the other fields. -/
theorem period_cb_advance_fields (sb : intel_alsa_ssp_dma_buf) :
    (period_cb_advance sb).period_index_max = sb.period_index_max ∧
    (period_cb_advance sb).addr = sb.addr ∧
    (period_cb_advance sb).length = sb.length ∧
    (period_cb_advance sb).period_req_index = sb.period_req_index := by
  unfold period_cb_advance
  simp only []
  split_ifs <;> exact ⟨rfl, rfl, rfl, rfl⟩

/-- The completion index after the advance, as the C statement computes it. -/
theorem period_cb_advance_index (sb : intel_alsa_ssp_dma_buf) :
    (period_cb_advance sb).period_cb_index =
      (if sb.period_cb_index + 1 ≥ sb.period_index_max then 0 else sb.period_cb_index + 1) := by
  unfold period_cb_advance
  simp only []
  split_ifs <;> rfl

/-- Below the period count the advance is the successor modulo the count. -/
theorem period_cb_advance_mod (sb : intel_alsa_ssp_dma_buf)
    (hc : sb.period_cb_index < sb.period_index_max) :
    (period_cb_advance sb).period_cb_index =
      (sb.period_cb_index + 1) % sb.period_index_max := by
  rw [period_cb_advance_index]
  split_ifs with h
  · have : sb.period_cb_index + 1 = sb.period_index_max := by omega
    rw [this, Nat.mod_self]
  · rw [Nat.mod_eq_of_lt (by omega)]

/-- The stream structure a completion callback leaves. -/
theorem completion_cb_str_info (capture : Bool) (s : intel_alsa_ifx_stream_info) :
    (completion_cb capture (some s)).str_info =
      some { s with dma_slot := period_cb_advance s.dma_slot } := by
  cases capture <;>
    simp only [completion_cb, intel_alsa_ifx_dma_playback_complete,
      intel_alsa_ifx_dma_capture_complete] <;>
    split_ifs <;> simp_all

/-- The notifications a completion callback sends. -/
theorem completion_cb_elapsed (capture : Bool) (s : intel_alsa_ifx_stream_info) :
    (completion_cb capture (some s)).elapsed =
      (if s.stream_status.STARTED = true then [s.substream] else []) := by
  cases capture <;>
    simp only [completion_cb, intel_alsa_ifx_dma_playback_complete,
      intel_alsa_ifx_dma_capture_complete] <;>
    split_ifs <;> simp_all

/-- After `k` callbacks from an index below the period count, the index has
advanced by `k` modulo the count. -/
theorem complete_times_index (capture : Bool) (k : Nat) :
    ∀ s : intel_alsa_ifx_stream_info,
      s.dma_slot.period_cb_index < s.dma_slot.period_index_max →
      (complete_times capture k s).dma_slot.period_index_max = s.dma_slot.period_index_max ∧
      (complete_times capture k s).dma_slot.period_cb_index =
        (s.dma_slot.period_cb_index + k) % s.dma_slot.period_index_max := by
  induction k with
  | zero =>
    intro s hc
    simp [complete_times, Nat.mod_eq_of_lt hc]
  | succ k ih =>
    intro s hc
    have hpos : 0 < s.dma_slot.period_index_max := by omega
    simp only [complete_times, completion_cb_str_info, Option.getD_some]
    have hmax := (period_cb_advance_fields s.dma_slot).1
    have hidx := period_cb_advance_mod s.dma_slot hc
    have hlt : (period_cb_advance s.dma_slot).period_cb_index <
        (period_cb_advance s.dma_slot).period_index_max := by
      rw [hidx, hmax]; exact Nat.mod_lt _ hpos
    obtain ⟨h1, h2⟩ := ih { s with dma_slot := period_cb_advance s.dma_slot } hlt
    simp only [] at h1 h2
    rw [h1, h2, hmax, hidx]
    refine ⟨rfl, ?_⟩
    rw [Nat.mod_add_mod]
    congr 1
    omega

/-- C7: for a substream with period count `n` and completion index `c < n`
(so that `n > 0`), the playback callback and the capture callback set the completion
index to `(c + 1) mod n`; starting from index 0, `n` consecutive callbacks of
either direction bring the index back to 0. -/
theorem completion_index_wraps (s : intel_alsa_ifx_stream_info)
    (hc : s.dma_slot.period_cb_index < s.dma_slot.period_index_max) :
    (intel_alsa_ifx_dma_playback_complete (some s)).str_info.map
        (fun r => r.dma_slot.period_cb_index) =
      some ((s.dma_slot.period_cb_index + 1) % s.dma_slot.period_index_max) ∧
    (intel_alsa_ifx_dma_capture_complete (some s)).str_info.map
        (fun r => r.dma_slot.period_cb_index) =
      some ((s.dma_slot.period_cb_index + 1) % s.dma_slot.period_index_max) ∧
    (s.dma_slot.period_cb_index = 0 →
      ∀ capture : Bool,
        (complete_times capture s.dma_slot.period_index_max s).dma_slot.period_cb_index = 0) := by
  have hp := completion_cb_str_info false s
  have hq := completion_cb_str_info true s
  simp only [completion_cb, if_true, Bool.false_eq_true, if_false] at hp hq
  refine ⟨?_, ?_, ?_⟩
  · rw [hp]; simp [period_cb_advance_mod s.dma_slot hc]
  · rw [hq]; simp [period_cb_advance_mod s.dma_slot hc]
  · intro h0 capture
    rw [(complete_times_index capture s.dma_slot.period_index_max s hc).2, h0]
    simp

/-- Witness of C7: the sample buffer has 4 periods and completion index 0. -/
theorem completion_index_wraps_witness :
    bt_playback.dma_slot.period_cb_index < bt_playback.dma_slot.period_index_max ∧
    (intel_alsa_ifx_dma_playback_complete (some bt_playback)).str_info.map
        (fun r => r.dma_slot.period_cb_index) =
      some ((bt_playback.dma_slot.period_cb_index + 1) % bt_playback.dma_slot.period_index_max) ∧
    (intel_alsa_ifx_dma_capture_complete (some bt_playback)).str_info.map
        (fun r => r.dma_slot.period_cb_index) =
      some ((bt_playback.dma_slot.period_cb_index + 1) % bt_playback.dma_slot.period_index_max) ∧
    (bt_playback.dma_slot.period_cb_index = 0 →
      ∀ capture : Bool,
        (complete_times capture bt_playback.dma_slot.period_index_max
          bt_playback).dma_slot.period_cb_index = 0) :=
  ⟨by decide, completion_index_wraps bt_playback (by decide)⟩

/-- The number of notifications of a list of completions. -/
theorem run_completions_length (cs : List Completion) :
    ∀ s : intel_alsa_ifx_stream_info, (run_completions cs s).length = started_count cs := by
  induction cs with
  | nil => intro s; simp [run_completions, started_count]
  | cons c cs ih =>
    intro s
    simp only [run_completions, started_count, List.length_append, completion_cb_elapsed, ih]
    cases c.started <;> simp

/-- C8: a completion callback on a non-NULL stream structure calls
`snd_pcm_period_elapsed` exactly once, on its substream, if STARTED is set and
not at all if it is clear; in both cases it returns 0 and advances the
completion index (to 0 if the incremented index reaches the period count, to
the incremented index otherwise) and changes nothing else; over any list of
completions the number of notifications is the number of callbacks made while
STARTED was set. -/
theorem completion_notifies_iff_started (s : intel_alsa_ifx_stream_info) :
    (intel_alsa_ifx_dma_playback_complete (some s)).elapsed =
      (if s.stream_status.STARTED = true then [s.substream] else []) ∧
    (intel_alsa_ifx_dma_capture_complete (some s)).elapsed =
      (if s.stream_status.STARTED = true then [s.substream] else []) ∧
    (intel_alsa_ifx_dma_playback_complete (some s)).ret = 0 ∧
    (intel_alsa_ifx_dma_capture_complete (some s)).ret = 0 ∧
    (intel_alsa_ifx_dma_playback_complete (some s)).str_info =
      some { s with dma_slot := { s.dma_slot with period_cb_index :=
        if s.dma_slot.period_cb_index + 1 ≥ s.dma_slot.period_index_max then 0
        else s.dma_slot.period_cb_index + 1 } } ∧
    (intel_alsa_ifx_dma_capture_complete (some s)).str_info =
      some { s with dma_slot := { s.dma_slot with period_cb_index :=
        if s.dma_slot.period_cb_index + 1 ≥ s.dma_slot.period_index_max then 0
        else s.dma_slot.period_cb_index + 1 } } ∧
    (∀ (cs : List Completion) (s0 : intel_alsa_ifx_stream_info),
      (run_completions cs s0).length = started_count cs) := by
  have he1 := completion_cb_elapsed false s
  have he2 := completion_cb_elapsed true s
  have hp := completion_cb_str_info false s
  have hq := completion_cb_str_info true s
  simp only [completion_cb, if_true, Bool.false_eq_true, if_false] at he1 he2 hp hq
  have hadv : period_cb_advance s.dma_slot =
      { s.dma_slot with period_cb_index :=
        if s.dma_slot.period_cb_index + 1 ≥ s.dma_slot.period_index_max then 0
        else s.dma_slot.period_cb_index + 1 } := by
    unfold period_cb_advance
    simp only []
    split_ifs <;> rfl
  refine ⟨he1, he2, ?_, ?_, ?_, ?_, fun cs s0 => run_completions_length cs s0⟩
  · simp only [intel_alsa_ifx_dma_playback_complete]; split_ifs <;> rfl
  · simp only [intel_alsa_ifx_dma_capture_complete]; split_ifs <;> rfl
  · rw [hp, hadv]
  · rw [hq, hadv]

/-! ### Requests on a stopped stream -/

/-- C9, counterexample: in the reset state (no handle) the playback request
and the capture request on a substream whose STARTED flag is clear return
`-EINVAL`, not 0. -/
theorem dma_req_stopped_without_handle :
    bt_playback.stream_status.STARTED = false ∧
    (intel_alsa_ifx_dma_playback_req hw_ok intel_alsa_reset_ifx_status bt_playback).ret =
      some (-EINVAL) ∧
    (intel_alsa_ifx_dma_capture_req hw_ok intel_alsa_reset_ifx_status bt_capture).ret =
      some (-EINVAL) ∧
    (intel_alsa_ifx_dma_playback_req hw_ok intel_alsa_reset_ifx_status bt_playback).ret ≠
      some 0 := by
  decide

/-- C9, amended: on a substream whose STARTED flag is clear, the playback
request and the capture request make no call to the I2S driver; they return 0
when the channel handle is present and `-EINVAL` when it is absent. -/
theorem dma_req_stopped_no_calls (hw : HwEnv) (st : intel_alsa_stream_status)
    (s : intel_alsa_ifx_stream_info) (hs : s.stream_status.STARTED = false) :
    (intel_alsa_ifx_dma_playback_req hw st s).calls = [] ∧
    (intel_alsa_ifx_dma_capture_req hw st s).calls = [] ∧
    (intel_alsa_ifx_dma_playback_req hw st s).ret =
      (if st.ssp_handle = none then some (-EINVAL) else some 0) ∧
    (intel_alsa_ifx_dma_capture_req hw st s).ret =
      (if st.ssp_handle = none then some (-EINVAL) else some 0) := by
  by_cases hh : st.ssp_handle = none
  · simp [intel_alsa_ifx_dma_playback_req, intel_alsa_ifx_dma_capture_req, hh]
  · simp [intel_alsa_ifx_dma_playback_req, intel_alsa_ifx_dma_capture_req, hh, hs]

/-- Witness of C9 amended: BT playback, stopped, while the channel is held
with the handle 1. -/
theorem dma_req_stopped_no_calls_witness :
    bt_playback.stream_status.STARTED = false ∧
    ((intel_alsa_ifx_dma_playback_req hw_ok ⟨some 1, 2⟩ bt_playback).calls = [] ∧
    (intel_alsa_ifx_dma_capture_req hw_ok ⟨some 1, 2⟩ bt_playback).calls = [] ∧
    (intel_alsa_ifx_dma_playback_req hw_ok ⟨some 1, 2⟩ bt_playback).ret =
      (if (⟨some 1, 2⟩ : intel_alsa_stream_status).ssp_handle = none
        then some (-EINVAL) else some 0) ∧
    (intel_alsa_ifx_dma_capture_req hw_ok ⟨some 1, 2⟩ bt_playback).ret =
      (if (⟨some 1, 2⟩ : intel_alsa_stream_status).ssp_handle = none
        then some (-EINVAL) else some 0)) :=
  ⟨rfl, dma_req_stopped_no_calls hw_ok ⟨some 1, 2⟩ bt_playback rfl⟩

/-! ### Open while the sibling holds the channel -/

/-- A word with a bit set is not zero. -/
theorem ne_zero_of_test_bit (nr word : Nat) (h : test_bit nr word = true) : word ≠ 0 := by
  intro hz
  rw [hz] at h
  simp [test_bit] at h

/-- C10: when the sibling of the requesting slot is held (bit 1 for a request
from slot 0, bit 0 for a request from slot 1; the mask is then not empty),
open sets the bit of the requesting slot and leaves the stored handle as it
was; its only call to the I2S driver is the DMA channel allocation of the
direction of the substream (none for an unsupported direction): it calls
neither `intel_mid_i2s_open`, nor the `SSP_CMD_SET_HW_CONFIG` command, nor
`intel_mid_i2s_set_wr_cb`, nor `intel_mid_i2s_set_rd_cb`. -/
theorem open_with_sibling_held (hw : HwEnv) (st : intel_alsa_stream_status)
    (s : intel_alsa_ifx_stream_info)
    (hsib : (s.stream_index = 0 ∧ test_bit 1 st.stream_info = true) ∨
            (s.stream_index = 1 ∧ test_bit 0 st.stream_info = true)) :
    st.stream_info ≠ 0 ∧
    (intel_alsa_ifx_open hw st (some s)).status.stream_info =
      set_bit s.stream_index st.stream_info ∧
    test_bit s.stream_index (intel_alsa_ifx_open hw st (some s)).status.stream_info = true ∧
    (intel_alsa_ifx_open hw st (some s)).status.ssp_handle = st.ssp_handle ∧
    (intel_alsa_ifx_open hw st (some s)).calls =
      (match s.substream.stream with
       | .SNDRV_PCM_STREAM_PLAYBACK =>
         [.intel_mid_i2s_command st.ssp_handle .SSP_CMD_ALLOC_TX none]
       | .SNDRV_PCM_STREAM_CAPTURE =>
         [.intel_mid_i2s_command st.ssp_handle .SSP_CMD_ALLOC_RX none]
       | .other _ => []) ∧
    HwCall.intel_mid_i2s_open ∉ (intel_alsa_ifx_open hw st (some s)).calls ∧
    (∀ handle arg, HwCall.intel_mid_i2s_command handle .SSP_CMD_SET_HW_CONFIG arg ∉
      (intel_alsa_ifx_open hw st (some s)).calls) ∧
    (∀ handle, HwCall.intel_mid_i2s_set_wr_cb handle ∉
      (intel_alsa_ifx_open hw st (some s)).calls) ∧
    (∀ handle, HwCall.intel_mid_i2s_set_rd_cb handle ∉
      (intel_alsa_ifx_open hw st (some s)).calls) := by
  have hm : st.stream_info ≠ 0 := by
    rcases hsib with ⟨_, h⟩ | ⟨_, h⟩
    · exact ne_zero_of_test_bit 1 _ h
    · exact ne_zero_of_test_bit 0 _ h
  have hcalls : (intel_alsa_ifx_open hw st (some s)).calls =
      (match s.substream.stream with
       | .SNDRV_PCM_STREAM_PLAYBACK =>
         [.intel_mid_i2s_command st.ssp_handle .SSP_CMD_ALLOC_TX none]
       | .SNDRV_PCM_STREAM_CAPTURE =>
         [.intel_mid_i2s_command st.ssp_handle .SSP_CMD_ALLOC_RX none]
       | .other _ => []) := by
    simp only [intel_alsa_ifx_open, if_neg hm, if_pos hsib, open_alloc_calls, List.nil_append]
  have hstatus : (intel_alsa_ifx_open hw st (some s)).status =
      { st with stream_info := set_bit s.stream_index st.stream_info } := by
    simp only [intel_alsa_ifx_open, if_neg hm, if_pos hsib, open_alloc_status]
  refine ⟨hm, ?_, ?_, ?_, hcalls, ?_, ?_, ?_, ?_⟩
  · rw [hstatus]
  · rw [hstatus]; exact test_bit_set_bit_self _ _
  · rw [hstatus]
  · rw [hcalls]; cases s.substream.stream <;> simp
  · intro handle arg; rw [hcalls]; cases s.substream.stream <;> simp
  · intro handle; rw [hcalls]; cases s.substream.stream <;> simp
  · intro handle; rw [hcalls]; cases s.substream.stream <;> simp

/-- Witness of C10: BT playback (slot 1) opens while BT capture (bit 0) holds
the channel with the handle 1. -/
theorem open_with_sibling_held_witness :
    ((bt_playback.stream_index = 0 ∧ test_bit 1 1 = true) ∨
      (bt_playback.stream_index = 1 ∧ test_bit 0 1 = true)) ∧
    (intel_alsa_ifx_open hw_ok ⟨some 1, 1⟩ (some bt_playback)).status = ⟨some 1, 3⟩ ∧
    (intel_alsa_ifx_open hw_ok ⟨some 1, 1⟩ (some bt_playback)).calls =
      [.intel_mid_i2s_command (some 1) .SSP_CMD_ALLOC_TX none] ∧
    HwCall.intel_mid_i2s_open ∉ (intel_alsa_ifx_open hw_ok ⟨some 1, 1⟩ (some bt_playback)).calls :=
  ⟨by decide, by decide, by decide,
    (open_with_sibling_held hw_ok ⟨some 1, 1⟩ bt_playback (by decide)).2.2.2.2.2.1⟩

/-! ### Return codes of open -/

/-- The return code of the allocation step. -/
theorem open_alloc_ret (hw : HwEnv) (st : intel_alsa_stream_status)
    (s : intel_alsa_ifx_stream_info) (calls : List HwCall) :
    (intel_alsa_ifx_open_alloc hw st s calls).ret =
      (match s.substream.stream with
       | .SNDRV_PCM_STREAM_PLAYBACK =>
         if hw.i2s_command_ret .SSP_CMD_ALLOC_TX ≠ 0 then -EBUSY else 0
       | .SNDRV_PCM_STREAM_CAPTURE =>
         if hw.i2s_command_ret .SSP_CMD_ALLOC_RX ≠ 0 then -EBUSY else 0
       | .other _ => -EINVAL) := by
  unfold intel_alsa_ifx_open_alloc
  cases s.substream.stream <;> simp only [] <;> (try split_ifs) <;> rfl

/-- The allocation step returns 0, `-EBUSY` or `-EINVAL`. -/
theorem open_alloc_ret_cases (hw : HwEnv) (st : intel_alsa_stream_status)
    (s : intel_alsa_ifx_stream_info) (calls : List HwCall) :
    (intel_alsa_ifx_open_alloc hw st s calls).ret = 0 ∨
    (intel_alsa_ifx_open_alloc hw st s calls).ret = -EBUSY ∨
    (intel_alsa_ifx_open_alloc hw st s calls).ret = -EINVAL := by
  rw [open_alloc_ret]
  cases s.substream.stream <;> simp only [] <;> (try split_ifs) <;> simp

/-- Open returns 0, `-EBUSY` or `-EINVAL`. -/
theorem open_ret_cases (hw : HwEnv) (st : intel_alsa_stream_status)
    (str_info : Option intel_alsa_ifx_stream_info) :
    (intel_alsa_ifx_open hw st str_info).ret = 0 ∨
    (intel_alsa_ifx_open hw st str_info).ret = -EBUSY ∨
    (intel_alsa_ifx_open hw st str_info).ret = -EINVAL := by
  cases str_info with
  | none => simp [intel_alsa_ifx_open]
  | some s =>
    by_cases hm : st.stream_info = 0
    · by_cases hw1 : hw.set_wr_cb_ret = 0
      · by_cases hw2 : hw.set_rd_cb_ret = 0
        · simp only [intel_alsa_ifx_open, if_pos hm, hw1, hw2, ne_eq, not_true_eq_false,
            if_false]
          exact open_alloc_ret_cases _ _ _ _
        · simp [intel_alsa_ifx_open, hm, hw1, hw2]
      · simp [intel_alsa_ifx_open, hm, hw1]
    · by_cases hc : (s.stream_index = 0 ∧ test_bit 1 st.stream_info = true) ∨
          (s.stream_index = 1 ∧ test_bit 0 st.stream_info = true)
      · simp only [intel_alsa_ifx_open, if_neg hm, if_pos hc]
        exact open_alloc_ret_cases _ _ _ _
      · simp [intel_alsa_ifx_open, hm, hc]

/-- C11, counterexample: an OPEN of BT capture from the reset state during
which the registration of the write callback fails returns `-EINVAL`, and so
does an OPEN on a substream with an unsupported direction when every hardware
call succeeds; both fail, and neither returns `-EBUSY`. -/
theorem open_failure_not_busy :
    (intel_alsa_ifx_open hw_wr_cb_fail intel_alsa_reset_ifx_status (some bt_capture)).ret =
      -EINVAL ∧
    (intel_alsa_ifx_open hw_ok intel_alsa_reset_ifx_status (some bad_direction)).ret =
      -EINVAL ∧
    (intel_alsa_ifx_open hw_wr_cb_fail intel_alsa_reset_ifx_status (some bt_capture)).ret ≠ 0 ∧
    (intel_alsa_ifx_open hw_wr_cb_fail intel_alsa_reset_ifx_status (some bt_capture)).ret ≠
      -EBUSY := by
  decide

/-- C11, amended: whenever open fails, the error it returns is `-EBUSY` or
`-EINVAL`.  It is `-EINVAL` when the stream structure is absent, when the
mask is empty and the registration of the write callback or of the read
callback fails, and when the request is admitted, the callbacks (if
registered) are accepted and the direction is unsupported. -/
theorem open_failure_codes (hw : HwEnv) (st : intel_alsa_stream_status)
    (str_info : Option intel_alsa_ifx_stream_info)
    (hfail : (intel_alsa_ifx_open hw st str_info).ret ≠ 0) :
    ((intel_alsa_ifx_open hw st str_info).ret = -EBUSY ∨
      (intel_alsa_ifx_open hw st str_info).ret = -EINVAL) ∧
    (str_info = none → (intel_alsa_ifx_open hw st str_info).ret = -EINVAL) ∧
    (∀ s, str_info = some s → st.stream_info = 0 →
      (hw.set_wr_cb_ret ≠ 0 ∨ hw.set_rd_cb_ret ≠ 0) →
      (intel_alsa_ifx_open hw st str_info).ret = -EINVAL) ∧
    (∀ s v, str_info = some s → admitted st s →
      (st.stream_info = 0 → hw.set_wr_cb_ret = 0 ∧ hw.set_rd_cb_ret = 0) →
      s.substream.stream = .other v →
      (intel_alsa_ifx_open hw st str_info).ret = -EINVAL) := by
  refine ⟨?_, ?_, ?_, ?_⟩
  · rcases open_ret_cases hw st str_info with h | h | h
    · exact absurd h hfail
    · exact Or.inl h
    · exact Or.inr h
  · intro hnone
    subst hnone
    simp [intel_alsa_ifx_open]
  · intro s hs hm hcb
    subst hs
    by_cases hw1 : hw.set_wr_cb_ret = 0
    · have hw2 : hw.set_rd_cb_ret ≠ 0 := by
        rcases hcb with h | h
        · exact absurd hw1 h
        · exact h
      simp [intel_alsa_ifx_open, hm, hw1, hw2]
    · simp [intel_alsa_ifx_open, hm, hw1]
  · intro s v hs hadm hcb hdir
    subst hs
    by_cases hm : st.stream_info = 0
    · obtain ⟨hw1, hw2⟩ := hcb hm
      simp only [intel_alsa_ifx_open, if_pos hm, hw1, hw2, ne_eq, not_true_eq_false, if_false,
        open_alloc_ret]
      simp [hdir]
    · have hc : (s.stream_index = 0 ∧ test_bit 1 st.stream_info = true) ∨
          (s.stream_index = 1 ∧ test_bit 0 st.stream_info = true) := by
        rcases hadm with h | h
        · exact absurd h hm
        · exact h
      simp only [intel_alsa_ifx_open, if_neg hm, if_pos hc, open_alloc_ret]
      simp [hdir]

/-- Witness of C11 amended: FM capture asks while BT capture holds the
channel; open fails with `-EBUSY`. -/
theorem open_failure_codes_witness :
    (intel_alsa_ifx_open hw_ok ⟨some 1, 1⟩ (some fm_capture)).ret ≠ 0 ∧
    ((intel_alsa_ifx_open hw_ok ⟨some 1, 1⟩ (some fm_capture)).ret = -EBUSY ∨
      (intel_alsa_ifx_open hw_ok ⟨some 1, 1⟩ (some fm_capture)).ret = -EINVAL) :=
  ⟨by decide, (open_failure_codes hw_ok ⟨some 1, 1⟩ (some fm_capture) (by decide)).1⟩

/-! ### Allocation failure in open -/

/-- C12: when an open request is admitted (mask empty, or compatible sibling
held) and the DMA channel allocation command of its direction (ALLOC_TX for
playback, ALLOC_RX for capture) is issued and reports failure, open returns
`-EBUSY` and the bit of the requesting slot is set in the mask afterwards: the
mask is the old mask with that bit set, it is not rolled back. -/
theorem open_alloc_failure_keeps_bit (hw : HwEnv) (st : intel_alsa_stream_status)
    (s : intel_alsa_ifx_stream_info) (hadm : admitted st s)
    (hfail : alloc_command_failed hw (intel_alsa_ifx_open hw st (some s)) s) :
    (intel_alsa_ifx_open hw st (some s)).ret = -EBUSY ∧
    test_bit s.stream_index (intel_alsa_ifx_open hw st (some s)).status.stream_info = true ∧
    (intel_alsa_ifx_open hw st (some s)).status.stream_info =
      set_bit s.stream_index st.stream_info := by
  have hret : ∀ calls st1 (s1 : intel_alsa_ifx_stream_info), s1.substream = s.substream →
      (intel_alsa_ifx_open_alloc hw st1 s1 calls).ret = -EBUSY := by
    intro calls st1 s1 hs1
    rw [open_alloc_ret, hs1]
    rcases hfail with ⟨hd, _, hf⟩ | ⟨hd, _, hf⟩ <;> simp [hd, hf]
  by_cases hm : st.stream_info = 0
  · by_cases hw1 : hw.set_wr_cb_ret = 0
    · by_cases hw2 : hw.set_rd_cb_ret = 0
      · simp only [intel_alsa_ifx_open, if_pos hm, hw1, hw2, ne_eq, not_true_eq_false,
          if_false, open_alloc_status]
        exact ⟨hret _ _ _ rfl, test_bit_set_bit_self _ _, trivial⟩
      · exfalso
        unfold alloc_command_failed at hfail
        simp [intel_alsa_ifx_open, hm, hw1, hw2] at hfail
    · exfalso
      unfold alloc_command_failed at hfail
      simp [intel_alsa_ifx_open, hm, hw1] at hfail
  · have hc : (s.stream_index = 0 ∧ test_bit 1 st.stream_info = true) ∨
        (s.stream_index = 1 ∧ test_bit 0 st.stream_info = true) := by
      rcases hadm with h | h
      · exact absurd h hm
      · exact h
    simp only [intel_alsa_ifx_open, if_neg hm, if_pos hc, open_alloc_status]
    exact ⟨hret _ _ _ rfl, test_bit_set_bit_self _ _, trivial⟩

/-- Witness of C12: BT playback opens while BT capture holds the channel;
ALLOC_TX fails; bit 1 stays set. -/
theorem open_alloc_failure_keeps_bit_witness :
    admitted ⟨some 1, 1⟩ bt_playback ∧
    alloc_command_failed hw_alloc_fail
      (intel_alsa_ifx_open hw_alloc_fail ⟨some 1, 1⟩ (some bt_playback)) bt_playback ∧
    (intel_alsa_ifx_open hw_alloc_fail ⟨some 1, 1⟩ (some bt_playback)).ret = -EBUSY ∧
    test_bit bt_playback.stream_index
      (intel_alsa_ifx_open hw_alloc_fail ⟨some 1, 1⟩ (some bt_playback)).status.stream_info =
        true ∧
    (intel_alsa_ifx_open hw_alloc_fail ⟨some 1, 1⟩ (some bt_playback)).status.stream_info =
      set_bit bt_playback.stream_index 1 :=
  ⟨by decide, by decide,
    open_alloc_failure_keeps_bit hw_alloc_fail ⟨some 1, 1⟩ bt_playback (by decide) (by decide)⟩

/-! ### The dispatcher -/

/-- C13: for every channel state and every stream structure argument, NULL
included, the PAUSE and the RESUME command of the dispatcher return 0, make no
call to the I2S driver and leave the global and the stream structure as they
were. -/
theorem control_pause_resume_noop (hw : HwEnv) (st : intel_alsa_stream_status)
    (str_info : Option intel_alsa_ifx_stream_info) :
    intel_alsa_ifx_control hw .INTEL_ALSA_SSP_CTRL_SND_PAUSE st str_info =
      { ret := 0, status := st, str_info := str_info, calls := [] } ∧
    intel_alsa_ifx_control hw .INTEL_ALSA_SSP_CTRL_SND_RESUME st str_info =
      { ret := 0, status := st, str_info := str_info, calls := [] } :=
  ⟨rfl, rfl⟩

/-- C14: for every command value other than OPEN, CLOSE, PAUSE and RESUME, the
dispatcher returns `-EINVAL`, leaves the global and the stream structure as
they were and makes no call to the I2S driver. -/
theorem control_bad_command (hw : HwEnv) (command : ctrl_id)
    (st : intel_alsa_stream_status) (str_info : Option intel_alsa_ifx_stream_info)
    (hopen : command ≠ .INTEL_ALSA_SSP_CTRL_SND_OPEN)
    (hclose : command ≠ .INTEL_ALSA_SSP_CTRL_SND_CLOSE)
    (hpause : command ≠ .INTEL_ALSA_SSP_CTRL_SND_PAUSE)
    (hresume : command ≠ .INTEL_ALSA_SSP_CTRL_SND_RESUME) :
    (intel_alsa_ifx_control hw command st str_info).ret = -EINVAL ∧
    (intel_alsa_ifx_control hw command st str_info).status = st ∧
    (intel_alsa_ifx_control hw command st str_info).str_info = str_info ∧
    (intel_alsa_ifx_control hw command st str_info).calls = [] := by
  cases command with
  | INTEL_ALSA_SSP_CTRL_SND_OPEN => exact absurd rfl hopen
  | INTEL_ALSA_SSP_CTRL_SND_CLOSE => exact absurd rfl hclose
  | INTEL_ALSA_SSP_CTRL_SND_PAUSE => exact absurd rfl hpause
  | INTEL_ALSA_SSP_CTRL_SND_RESUME => exact absurd rfl hresume
  | other v => exact ⟨rfl, rfl, rfl, rfl⟩

/-- Witness of C14: the command value 99 while BT capture and BT playback hold
the channel. -/
theorem control_bad_command_witness :
    (intel_alsa_ifx_control hw_ok (.other 99) ⟨some 1, 3⟩ (some bt_capture)).ret = -EINVAL ∧
    (intel_alsa_ifx_control hw_ok (.other 99) ⟨some 1, 3⟩ (some bt_capture)).status =
      ⟨some 1, 3⟩ ∧
    (intel_alsa_ifx_control hw_ok (.other 99) ⟨some 1, 3⟩ (some bt_capture)).str_info =
      some bt_capture ∧
    (intel_alsa_ifx_control hw_ok (.other 99) ⟨some 1, 3⟩ (some bt_capture)).calls = [] :=
  control_bad_command hw_ok (.other 99) ⟨some 1, 3⟩ (some bt_capture)
    (by decide) (by decide) (by decide) (by decide)

/-! ### Requests on a started stream -/

/-- C16: when `kzalloc` returns NULL for a started stream whose DMA is not
initialised, with the handle present, the playback request tests the table and
returns `-EINVAL` without any call to the I2S driver, but the capture request
does not test it: it stores through the NULL table in the first turn of its
loop and does not return `-EINVAL`. -/
theorem dma_capture_req_null_table :
    bt_capture_started.stream_status.STARTED = true ∧
    bt_capture_started.stream_status.INIT = false ∧
    bt_capture_started.dma_slot.period_index_max = 4 ∧
    intel_alsa_ifx_dma_playback_req hw_no_mem ⟨some 1, 1⟩ bt_capture_started =
      { ret := some (-EINVAL), calls := [] } ∧
    (intel_alsa_ifx_dma_capture_req hw_no_mem ⟨some 1, 1⟩ bt_capture_started).ret = none ∧
    (intel_alsa_ifx_dma_capture_req hw_no_mem ⟨some 1, 1⟩ bt_capture_started).ret ≠
      some (-EINVAL) := by
  decide

/-! ### Close -/

/-- The bit just cleared is clear. -/
theorem test_bit_clear_bit_self (nr word : Nat) :
    test_bit nr (clear_bit nr word) = false := by
  simp [test_bit, clear_bit, Nat.one_shiftLeft, Nat.testBit_two_pow_self]

/-- Clearing a bit that is not set leaves the word as it is. -/
theorem clear_bit_of_not_set (nr word : Nat) (h : test_bit nr word = false) :
    clear_bit nr word = word := by
  apply Nat.eq_of_testBit_eq
  intro i
  simp only [clear_bit, Nat.testBit_xor, Nat.testBit_and, Nat.one_shiftLeft,
    Nat.testBit_two_pow]
  by_cases hi : nr = i
  · subst hi
    simp only [test_bit] at h
    simp [h]
  · simp [hi]

/-- Clearing the only bit of a word gives the empty word. -/
theorem clear_bit_set_bit_zero (nr : Nat) : clear_bit nr (set_bit nr 0) = 0 := by
  simp [clear_bit, set_bit]

/-- The outcome of a close that passes the two guards, on a substream with a
valid direction. -/
theorem close_valid_outcome (hw : HwEnv) (st : intel_alsa_stream_status)
    (s : intel_alsa_ifx_stream_info) (h : Nat) (hv : valid_stream s)
    (hh : st.ssp_handle = some h) (hm : st.stream_info ≠ 0) :
    intel_alsa_ifx_close hw st (some s) =
      { ret := 0,
        status :=
          { ssp_handle := if clear_bit s.stream_index st.stream_info = 0 then none else some h,
            stream_info := clear_bit s.stream_index st.stream_info },
        str_info := some { s with stream_status := { s.stream_status with INIT := false } },
        calls :=
          .intel_mid_i2s_command (some h) (free_cmd s) none ::
            (if clear_bit s.stream_index st.stream_info = 0 then [.intel_mid_i2s_close (some h)]
             else []) } := by
  by_cases hz : clear_bit s.stream_index st.stream_info = 0 <;>
    rcases hv with hv | hv <;>
    simp [intel_alsa_ifx_close, hh, hm, hv, hz, free_cmd]

/-- C17: a close on a substream with a valid direction, in a state with a
present handle and a non-empty mask, returns 0; the mask afterwards is the old
mask with the bit of the slot cleared; the calls are exactly one DMA channel
release command of the direction (FREE_TX for playback, FREE_RX for capture),
whether or not the mask becomes empty, followed by `intel_mid_i2s_close` if
and only if the mask is empty after clearing the bit; the stored handle is
cleared in that case and kept otherwise; the INIT flag of the substream is
clear afterwards. -/
theorem close_held_channel (hw : HwEnv) (st : intel_alsa_stream_status)
    (s : intel_alsa_ifx_stream_info) (h : Nat) (hv : valid_stream s)
    (hh : st.ssp_handle = some h) (hm : st.stream_info ≠ 0) :
    (intel_alsa_ifx_close hw st (some s)).ret = 0 ∧
    (intel_alsa_ifx_close hw st (some s)).status.stream_info =
      clear_bit s.stream_index st.stream_info ∧
    test_bit s.stream_index (intel_alsa_ifx_close hw st (some s)).status.stream_info = false ∧
    (intel_alsa_ifx_close hw st (some s)).calls =
      .intel_mid_i2s_command (some h)
          (if s.substream.stream = .SNDRV_PCM_STREAM_PLAYBACK then .SSP_CMD_FREE_TX
           else .SSP_CMD_FREE_RX) none ::
        (if (intel_alsa_ifx_close hw st (some s)).status.stream_info = 0 then
          [.intel_mid_i2s_close (some h)]
         else []) ∧
    (intel_alsa_ifx_close hw st (some s)).status.ssp_handle =
      (if (intel_alsa_ifx_close hw st (some s)).status.stream_info = 0 then none
       else some h) ∧
    (intel_alsa_ifx_close hw st (some s)).str_info =
      some { s with stream_status := { s.stream_status with INIT := false } } ∧
    (intel_alsa_ifx_close hw st (some s)).str_info.map (fun r => r.stream_status.INIT) =
      some false := by
  rw [close_valid_outcome hw st s h hv hh hm]
  refine ⟨rfl, rfl, test_bit_clear_bit_self _ _, rfl, rfl, rfl, rfl⟩

/-- Witness of C17: BT capture closes while both BT slots hold the channel
(the mask stays non-empty: no hardware close). -/
theorem close_held_channel_witness :
    valid_stream bt_capture ∧
    (intel_alsa_ifx_close hw_ok ⟨some 1, 3⟩ (some bt_capture)).ret = 0 ∧
    (intel_alsa_ifx_close hw_ok ⟨some 1, 3⟩ (some bt_capture)).status = ⟨some 1, 2⟩ ∧
    (intel_alsa_ifx_close hw_ok ⟨some 1, 3⟩ (some bt_capture)).calls =
      [.intel_mid_i2s_command (some 1) .SSP_CMD_FREE_RX none] ∧
    (intel_alsa_ifx_close hw_ok ⟨some 1, 3⟩ (some bt_capture)).status.stream_info =
      clear_bit bt_capture.stream_index 3 :=
  ⟨by decide, by decide, by decide, by decide,
    (close_held_channel hw_ok ⟨some 1, 3⟩ bt_capture 1 (by decide) rfl (by decide)).2.1⟩

/-- C20: close does not test ownership.  In a state with a present handle and
a non-empty mask, a close on a substream with a valid direction whose slot bit
is not set in the mask returns 0, leaves the mask and the handle as they
were, does not call `intel_mid_i2s_close`, and still issues the DMA channel
release command of the direction of that substream, as its only call. -/
theorem close_by_non_holder (hw : HwEnv) (st : intel_alsa_stream_status)
    (s : intel_alsa_ifx_stream_info) (h : Nat) (hv : valid_stream s)
    (hh : st.ssp_handle = some h) (hm : st.stream_info ≠ 0)
    (hbit : test_bit s.stream_index st.stream_info = false) :
    (intel_alsa_ifx_close hw st (some s)).ret = 0 ∧
    (intel_alsa_ifx_close hw st (some s)).status = st ∧
    (intel_alsa_ifx_close hw st (some s)).status.stream_info = st.stream_info ∧
    (intel_alsa_ifx_close hw st (some s)).status.ssp_handle = st.ssp_handle ∧
    hw_close_count (intel_alsa_ifx_close hw st (some s)).calls = 0 ∧
    (intel_alsa_ifx_close hw st (some s)).calls =
      [.intel_mid_i2s_command (some h)
        (if s.substream.stream = .SNDRV_PCM_STREAM_PLAYBACK then .SSP_CMD_FREE_TX
         else .SSP_CMD_FREE_RX) none] := by
  have hst : ({ ssp_handle := some h, stream_info := st.stream_info } :
      intel_alsa_stream_status) = st := by
    cases st
    simp only [] at hh
    simp [hh]
  rw [close_valid_outcome hw st s h hv hh hm, clear_bit_of_not_set _ _ hbit]
  simp only [if_neg hm]
  refine ⟨?_, ?_, ?_, ?_, ?_, ?_⟩ <;> first | trivial | rfl | exact hst | exact hh.symm

/-- Witness of C20: FM capture (slot 2) closes while BT capture (bit 0) holds
the channel. -/
theorem close_by_non_holder_witness :
    valid_stream fm_capture ∧
    test_bit fm_capture.stream_index 1 = false ∧
    (intel_alsa_ifx_close hw_ok ⟨some 1, 1⟩ (some fm_capture)).ret = 0 ∧
    (intel_alsa_ifx_close hw_ok ⟨some 1, 1⟩ (some fm_capture)).status = ⟨some 1, 1⟩ ∧
    (intel_alsa_ifx_close hw_ok ⟨some 1, 1⟩ (some fm_capture)).calls =
      [.intel_mid_i2s_command (some 1) .SSP_CMD_FREE_RX none] :=
  ⟨by decide, by decide,
    (close_by_non_holder hw_ok ⟨some 1, 1⟩ fm_capture 1 (by decide) rfl (by decide)
      (by decide)).1,
    by decide, by decide⟩

/-! ### FM and BT are exclusive -/

/-- Open leaves the mask or, when the request is admitted, sets the bit of the
slot. -/
theorem open_mask_cases (hw : HwEnv) (st : intel_alsa_stream_status)
    (s : intel_alsa_ifx_stream_info) :
    (intel_alsa_ifx_open hw st (some s)).status.stream_info = st.stream_info ∨
    (admitted st s ∧
      (intel_alsa_ifx_open hw st (some s)).status.stream_info =
        set_bit s.stream_index st.stream_info) := by
  by_cases hm : st.stream_info = 0
  · right
    refine ⟨Or.inl hm, ?_⟩
    by_cases hw1 : hw.set_wr_cb_ret = 0
    · by_cases hw2 : hw.set_rd_cb_ret = 0
      · simp [intel_alsa_ifx_open, hm, hw1, hw2, open_alloc_status]
      · simp [intel_alsa_ifx_open, hm, hw1, hw2]
    · simp [intel_alsa_ifx_open, hm, hw1]
  · by_cases hc : (s.stream_index = 0 ∧ test_bit 1 st.stream_info = true) ∨
        (s.stream_index = 1 ∧ test_bit 0 st.stream_info = true)
    · right
      refine ⟨Or.inr hc, ?_⟩
      simp only [intel_alsa_ifx_open, if_neg hm, if_pos hc, open_alloc_status]
    · left
      simp [intel_alsa_ifx_open, hm, hc]

/-- Close leaves the mask or clears the bit of the slot. -/
theorem close_mask_cases (hw : HwEnv) (st : intel_alsa_stream_status)
    (s : intel_alsa_ifx_stream_info) :
    (intel_alsa_ifx_close hw st (some s)).status.stream_info = st.stream_info ∨
    (intel_alsa_ifx_close hw st (some s)).status.stream_info =
      clear_bit s.stream_index st.stream_info := by
  by_cases hh : st.ssp_handle = none
  · left; simp [intel_alsa_ifx_close, hh]
  · by_cases hm : st.stream_info = 0
    · left; simp [intel_alsa_ifx_close, hh, hm]
    · right
      by_cases hz : clear_bit s.stream_index st.stream_info = 0 <;>
        cases hd : s.substream.stream <;>
        simp [intel_alsa_ifx_close, hh, hm, hd, hz]

/-- On the allowed masks, an admitted request from slot 0, 1 or 2 leads to an
allowed mask, and so does clearing the bit of slot 0, 1 or 2. -/
theorem allowed_mask_steps :
    ∀ m ∈ [0, 1, 2, 3, 4], ∀ i ∈ [0, 1, 2],
      ((m = 0 ∨ (i = 0 ∧ test_bit 1 m = true) ∨ (i = 1 ∧ test_bit 0 m = true)) →
        allowed_mask (set_bit i m)) ∧
      allowed_mask (clear_bit i m) := by
  decide

/-- One command on a slot 0, 1 or 2 keeps the mask allowed. -/
theorem control_keeps_allowed_mask (x : Step) (st : intel_alsa_stream_status)
    (hx : x.str_info.stream_index ≤ 2) (hinv : allowed_mask st.stream_info) :
    allowed_mask (intel_alsa_ifx_control x.hw x.command st (some x.str_info)).status.stream_info := by
  have hmem : st.stream_info ∈ [0, 1, 2, 3, 4] := by
    unfold allowed_mask at hinv
    simp only [List.mem_cons, List.mem_singleton, List.not_mem_nil, or_false]
    exact hinv
  have himem : x.str_info.stream_index ∈ [0, 1, 2] := by
    simp only [List.mem_cons, List.mem_singleton, List.not_mem_nil, or_false]
    omega
  obtain ⟨hset, hclear⟩ := allowed_mask_steps _ hmem _ himem
  cases hcmd : x.command with
  | INTEL_ALSA_SSP_CTRL_SND_OPEN =>
    simp only [intel_alsa_ifx_control]
    rcases open_mask_cases x.hw st x.str_info with h | ⟨hadm, h⟩
    · rw [h]; exact hinv
    · rw [h]; exact hset hadm
  | INTEL_ALSA_SSP_CTRL_SND_CLOSE =>
    simp only [intel_alsa_ifx_control]
    rcases close_mask_cases x.hw st x.str_info with h | h
    · rw [h]; exact hinv
    · rw [h]; exact hclear
  | INTEL_ALSA_SSP_CTRL_SND_PAUSE => simpa [intel_alsa_ifx_control] using hinv
  | INTEL_ALSA_SSP_CTRL_SND_RESUME => simpa [intel_alsa_ifx_control] using hinv
  | other v => simpa [intel_alsa_ifx_control] using hinv

/-- The mask stays allowed along a list of commands on the slots 0, 1, 2. -/
theorem final_status_keeps_allowed_mask (xs : List Step) :
    ∀ st : intel_alsa_stream_status, (∀ x ∈ xs, x.str_info.stream_index ≤ 2) →
      allowed_mask st.stream_info → allowed_mask (final_status st xs).stream_info := by
  induction xs with
  | nil => intro st _ h; simpa [final_status] using h
  | cons x xs ih =>
    intro st hx hinv
    simp only [final_status]
    exact ih _ (fun y hy => hx y (List.mem_cons_of_mem _ hy))
      (control_keeps_allowed_mask x st (hx x (List.mem_cons_self _ _)) hinv)

/-- An allowed mask does not hold bit 2 together with bit 0 or bit 1. -/
theorem allowed_mask_exclusive (m : Nat) (h : allowed_mask m) :
    ¬ (test_bit 2 m = true ∧ (test_bit 0 m = true ∨ test_bit 1 m = true)) := by
  rcases h with h | h | h | h | h <;> subst h <;> decide

/-- C18: in every state reached from the reset state by open and close calls
(and the other commands of the dispatcher) on the slots 0 (BT capture), 1 (BT
playback) and 2 (FM capture), whatever the hardware answers, the mask is one
of 0, 1, 2, 3, 4, that is {}, {0}, {1}, {0,1}, {2}; bit 2 is never set
together with bit 0 or bit 1. -/
theorem fm_bt_exclusive (xs : List Step) (hx : ∀ x ∈ xs, x.str_info.stream_index ≤ 2) :
    allowed_mask (final_status intel_alsa_reset_ifx_status xs).stream_info ∧
    ¬ (test_bit 2 (final_status intel_alsa_reset_ifx_status xs).stream_info = true ∧
        (test_bit 0 (final_status intel_alsa_reset_ifx_status xs).stream_info = true ∨
         test_bit 1 (final_status intel_alsa_reset_ifx_status xs).stream_info = true)) :=
  have h := final_status_keeps_allowed_mask xs intel_alsa_reset_ifx_status hx
    (Or.inl rfl)
  ⟨h, allowed_mask_exclusive _ h⟩

/-- Witness of C18: after the first two commands of the sample session the
mask is {0,1}. -/
theorem fm_bt_exclusive_witness :
    (∀ x ∈ sample_steps.take 2, x.str_info.stream_index ≤ 2) ∧
    (final_status intel_alsa_reset_ifx_status (sample_steps.take 2)).stream_info = 3 ∧
    allowed_mask (final_status intel_alsa_reset_ifx_status (sample_steps.take 2)).stream_info :=
  ⟨by decide, by decide, (fm_bt_exclusive (sample_steps.take 2) (by decide)).1⟩

/-! ### Round trip -/

/-- The outcome of an open from an empty mask when every hardware call
succeeds, on a substream with a valid direction. -/
theorem open_first_outcome (hw : HwEnv) (st : intel_alsa_stream_status)
    (s : intel_alsa_ifx_stream_info) (h : Nat) (hv : valid_stream s)
    (hm : st.stream_info = 0) (hopen : hw.i2s_open_ret = some h)
    (hwr : hw.set_wr_cb_ret = 0) (hrd : hw.set_rd_cb_ret = 0)
    (hcmd : ∀ c, hw.i2s_command_ret c = 0) :
    intel_alsa_ifx_open hw st (some s) =
      { ret := 0,
        status := { ssp_handle := some h, stream_info := set_bit s.stream_index 0 },
        str_info := some (opened s),
        calls :=
          [.intel_mid_i2s_open,
           .intel_mid_i2s_command (some h) .SSP_CMD_SET_HW_CONFIG (some s.device_id),
           .intel_mid_i2s_set_wr_cb (some h),
           .intel_mid_i2s_set_rd_cb (some h),
           .intel_mid_i2s_command (some h) (alloc_cmd s) none] } := by
  rcases hv with hv | hv <;>
    simp [intel_alsa_ifx_open, intel_alsa_ifx_open_alloc, hm, hopen, hwr, hrd, hcmd, hv,
      opened, alloc_cmd]

/-- C19: for every slot (0, 1 and 2 among them) and every valid direction,
when every hardware call succeeds, open from the reset state returns 0, close
of the same substream right after returns 0, the global is back in the reset
state (mask empty, handle absent), and the calls of the two together contain
exactly one `intel_mid_i2s_open` and one `intel_mid_i2s_close`. -/
theorem open_close_round_trip (hw : HwEnv) (s : intel_alsa_ifx_stream_info) (h : Nat)
    (hv : valid_stream s) (hopen : hw.i2s_open_ret = some h)
    (hwr : hw.set_wr_cb_ret = 0) (hrd : hw.set_rd_cb_ret = 0)
    (hcmd : ∀ c, hw.i2s_command_ret c = 0) :
    (intel_alsa_ifx_open hw intel_alsa_reset_ifx_status (some s)).ret = 0 ∧
    (intel_alsa_ifx_close hw
      (intel_alsa_ifx_open hw intel_alsa_reset_ifx_status (some s)).status
      (intel_alsa_ifx_open hw intel_alsa_reset_ifx_status (some s)).str_info).ret = 0 ∧
    (intel_alsa_ifx_close hw
      (intel_alsa_ifx_open hw intel_alsa_reset_ifx_status (some s)).status
      (intel_alsa_ifx_open hw intel_alsa_reset_ifx_status (some s)).str_info).status =
        intel_alsa_reset_ifx_status ∧
    hw_open_count
      ((intel_alsa_ifx_open hw intel_alsa_reset_ifx_status (some s)).calls ++
       (intel_alsa_ifx_close hw
        (intel_alsa_ifx_open hw intel_alsa_reset_ifx_status (some s)).status
        (intel_alsa_ifx_open hw intel_alsa_reset_ifx_status (some s)).str_info).calls) = 1 ∧
    hw_close_count
      ((intel_alsa_ifx_open hw intel_alsa_reset_ifx_status (some s)).calls ++
       (intel_alsa_ifx_close hw
        (intel_alsa_ifx_open hw intel_alsa_reset_ifx_status (some s)).status
        (intel_alsa_ifx_open hw intel_alsa_reset_ifx_status (some s)).str_info).calls) = 1 := by
  have hv1 : valid_stream (opened s) := hv
  have hidx : (opened s).stream_index = s.stream_index := rfl
  rw [open_first_outcome hw intel_alsa_reset_ifx_status s h hv rfl hopen hwr hrd hcmd]
  simp only []
  rw [close_valid_outcome hw _ (opened s) h hv1 rfl (set_bit_ne_zero _ _)]
  simp only [hidx, clear_bit_set_bit_zero, if_true, hw_open_count_append,
    hw_close_count_append]
  refine ⟨?_, ?_, ?_, ?_, ?_⟩ <;> trivial

/-- Witness of C19: FM capture opens and closes; the hardware answers are
those of `hw_ok`. -/
theorem open_close_round_trip_witness :
    valid_stream fm_capture ∧
    (intel_alsa_ifx_open hw_ok intel_alsa_reset_ifx_status (some fm_capture)).ret = 0 ∧
    (intel_alsa_ifx_close hw_ok
      (intel_alsa_ifx_open hw_ok intel_alsa_reset_ifx_status (some fm_capture)).status
      (intel_alsa_ifx_open hw_ok intel_alsa_reset_ifx_status (some fm_capture)).str_info).status =
        intel_alsa_reset_ifx_status :=
  ⟨by decide,
   (open_close_round_trip hw_ok fm_capture 1 (by decide) rfl rfl rfl (fun _ => rfl)).1,
   (open_close_round_trip hw_ok fm_capture 1 (by decide) rfl rfl rfl (fun _ => rfl)).2.2.1⟩

/-! ### What open does to the stream structure -/

/-- On every path, open leaves the stream structure with both period indices
0 and every other field as it was. -/
theorem open_str_info (hw : HwEnv) (st : intel_alsa_stream_status)
    (s : intel_alsa_ifx_stream_info) :
    (intel_alsa_ifx_open hw st (some s)).str_info = some (opened s) := by
  by_cases hm : st.stream_info = 0
  · by_cases hw1 : hw.set_wr_cb_ret = 0
    · by_cases hw2 : hw.set_rd_cb_ret = 0
      · simp only [intel_alsa_ifx_open, if_pos hm, hw1, hw2, ne_eq, not_true_eq_false,
          if_false, open_alloc_str_info, opened]
      · simp [intel_alsa_ifx_open, hm, hw1, hw2, opened]
    · simp [intel_alsa_ifx_open, hm, hw1, opened]
  · by_cases hc : (s.stream_index = 0 ∧ test_bit 1 st.stream_info = true) ∨
        (s.stream_index = 1 ∧ test_bit 0 st.stream_info = true)
    · simp only [intel_alsa_ifx_open, if_neg hm, if_pos hc, open_alloc_str_info, opened]
    · simp [intel_alsa_ifx_open, hm, hc, opened]

/-- C21: for every channel state, every hardware answer and every non-NULL
stream structure, open leaves the request period index and the completion
period index at 0 and every other field of the stream structure as it was,
whatever it returns; when the request is rejected (the mask is not empty and
the slot has no compatible sibling held), open returns `-EBUSY`, the indices
are 0 all the same, and nothing else changes: the global is as it was, the
other fields of the stream structure are as they were, and no call is made to
the I2S driver. -/
theorem open_resets_period_indices (hw : HwEnv) (st : intel_alsa_stream_status)
    (s : intel_alsa_ifx_stream_info) :
    (intel_alsa_ifx_open hw st (some s)).str_info.map
        (fun r => (r.dma_slot.period_req_index, r.dma_slot.period_cb_index)) = some (0, 0) ∧
    (intel_alsa_ifx_open hw st (some s)).str_info =
      some { s with dma_slot :=
        { s.dma_slot with period_req_index := 0, period_cb_index := 0 } } ∧
    (¬ admitted st s →
      (intel_alsa_ifx_open hw st (some s)).ret = -EBUSY ∧
      (intel_alsa_ifx_open hw st (some s)).status = st ∧
      (intel_alsa_ifx_open hw st (some s)).str_info =
        some { s with dma_slot :=
          { s.dma_slot with period_req_index := 0, period_cb_index := 0 } } ∧
      (intel_alsa_ifx_open hw st (some s)).calls = []) := by
  have hstr := open_str_info hw st s
  refine ⟨?_, ?_, ?_⟩
  · rw [hstr]; rfl
  · rw [hstr]; rfl
  · intro hrej
    have hm : st.stream_info ≠ 0 := fun h => hrej (Or.inl h)
    have hc : ¬ ((s.stream_index = 0 ∧ test_bit 1 st.stream_info = true) ∨
        (s.stream_index = 1 ∧ test_bit 0 st.stream_info = true)) :=
      fun h => hrej (Or.inr h)
    refine ⟨?_, ?_, ?_, ?_⟩
    · simp [intel_alsa_ifx_open, hm, hc]
    · simp [intel_alsa_ifx_open, hm, hc]
    · rw [hstr]; rfl
    · simp [intel_alsa_ifx_open, hm, hc]

/-- Witness of C21: FM capture, with both period indices at 5, asks while BT
capture holds the channel: the open is rejected and only the two indices
change. -/
theorem open_resets_period_indices_witness :
    ¬ admitted ⟨some 1, 1⟩
      { fm_capture with dma_slot :=
        { sample_buf with period_req_index := 5, period_cb_index := 5 } } ∧
    intel_alsa_ifx_open hw_ok ⟨some 1, 1⟩
      (some { fm_capture with dma_slot :=
        { sample_buf with period_req_index := 5, period_cb_index := 5 } }) =
      { ret := -EBUSY, status := ⟨some 1, 1⟩, str_info := some fm_capture, calls := [] } ∧
    (intel_alsa_ifx_open hw_ok ⟨some 1, 1⟩
      (some { fm_capture with dma_slot :=
        { sample_buf with period_req_index := 5, period_cb_index := 5 } })).ret = -EBUSY :=
  ⟨by decide, by decide,
    ((open_resets_period_indices hw_ok ⟨some 1, 1⟩
      { fm_capture with dma_slot :=
        { sample_buf with period_req_index := 5, period_cb_index := 5 } }).2.2
      (by decide)).1⟩

end IntelAlsaIfx
